import Mathlib

/-!
# Motor scheduling engine (`main/motor.cc`)

A shallow embedding of `sd::Motor`: the slot tables, the persistent store behind
`nvs_handle_`, phase recovery (`Motor::InitTimerContext`), slot allocation
(`Motor::CreateTimer`), start-up (`Motor::Init`) and the transition handler
(`Motor::TimerTask`).

Conventions.
* Unsigned machine integers are `Nat` with an explicit `%` where the source can wrap;
  `int64_t` values are `Int`.
* `motor.h` is missing from the sources, so what it declares is a parameter (`Config`):
  the number of slots `kMaxNumTimers` and the bit width of the `period_ms` and
  `duration_ms` fields. `portTICK_PERIOD_MS` comes from the FreeRTOS configuration and is
  a parameter as well. `TickType_t` is the 32 bit type of the ESP-IDF port.
  `RETURN_IF_ERROR(x)` returns the code of `x` when it is not `ESP_OK`, and
  `ESP_ERROR_CHECK(x)` aborts when the value of `x` is not `ESP_OK`.
* What the platform answers (clock, timer creation and start, store calls) is an explicit
  input (`Platform`, `InitPlatform`).
* A call that does not return normally still has a final state: `Exit` says how it ended.
-/

namespace sd

/-! ## Error codes (`esp_err.h`) -/

abbrev esp_err_t := Int

def ESP_OK : esp_err_t := 0
def ESP_ERR_NO_MEM : esp_err_t := 0x101
def ESP_ERR_INVALID_ARG : esp_err_t := 0x102
def ESP_ERR_INVALID_STATE : esp_err_t := 0x103

/-! ## Configuration and machine words -/

/-- Modelled from the spec: the declarations of `motor.h` and of the FreeRTOS
configuration that `motor.cc` uses are missing, and the spec fixes neither a slot count nor
a tick length nor a width for its "unsigned duration"; they are parameters. -/
structure Config where
  /-- Milliseconds per tick, `portTICK_PERIOD_MS`. -/
  portTICK_PERIOD_MS : Nat
  /-- Size of the two slot tables, `kMaxNumTimers`. -/
  kMaxNumTimers : Nat
  /-- Bit width of the unsigned type of `period_ms` and `duration_ms`. -/
  ms_bits : Nat
deriving DecidableEq, Repr

/-- The tick period is a positive `TickType_t` and the millisecond fields are an unsigned
type of 32 to 64 bits. -/
def Config.WF (cfg : Config) : Prop :=
  0 < cfg.portTICK_PERIOD_MS ∧ cfg.portTICK_PERIOD_MS < 2 ^ 32 ∧
    32 ≤ cfg.ms_bits ∧ cfg.ms_bits ≤ 64

instance (cfg : Config) : Decidable cfg.WF := by
  unfold Config.WF; infer_instance

/-- Number of values of `TickType_t` (`uint32_t`). -/
def TICK_MOD : Nat := 2 ^ 32

/-- Number of values of `uint64_t`. -/
def U64_MOD : Nat := 2 ^ 64

/-- Conversion `uint64_t → int64_t` (two's complement). -/
def toInt64 (n : Nat) : Int :=
  if n % U64_MOD < 2 ^ 63 then ((n % U64_MOD : Nat) : Int)
  else ((n % U64_MOD : Nat) : Int) - (U64_MOD : Int)

/-- Unsigned subtraction `a - b` in the type of the millisecond fields. -/
def ms_sub (cfg : Config) (a b : Nat) : Nat :=
  (a % 2 ^ cfg.ms_bits + 2 ^ cfg.ms_bits - b % 2 ^ cfg.ms_bits) % 2 ^ cfg.ms_bits

/-! ## Data model -/

/-- Modelled from the spec: the record `MotorTimerParam` is declared in the missing
`motor.h`; its fields are those `motor.cc` reads and writes, which are the fields of the
persisted record of the spec (speed, period_ms, duration_ms, first_start_timestamp, slot
id). The `float` speed is only copied, never computed with, and is kept as its bit
pattern. -/
structure MotorTimerParam where
  speed : Nat
  period_ms : Nat
  duration_ms : Nat
  first_start_timestamp : Nat
  timer_no : Nat
deriving DecidableEq, Repr

/-- The fields fit their machine types. -/
def MotorTimerParam.WF (cfg : Config) (p : MotorTimerParam) : Prop :=
  p.period_ms < 2 ^ cfg.ms_bits ∧ p.duration_ms < 2 ^ cfg.ms_bits ∧
    p.first_start_timestamp < U64_MOD ∧ p.timer_no < 256

instance (cfg : Config) (p : MotorTimerParam) : Decidable (p.WF cfg) := by
  unfold MotorTimerParam.WF; infer_instance

/-- Modelled from the spec: the enumeration `MotorTimerCMD` is declared in the missing
`motor.h`; `motor.cc` uses these two values, the phases AWAITING_START and AWAITING_STOP
of the spec. It is the command the armed timer performs when it fires next. -/
inductive MotorTimerCMD where
  | START_MOTOR
  | STOP_MOTOR
deriving DecidableEq, Repr

/-- The FreeRTOS timer object behind a `TimerHandle_t`: its period in ticks and whether it
is counting down. The timers are one-shot (`pdFALSE` auto-reload). -/
structure Timer where
  period_ticks : Nat
  active : Bool
deriving DecidableEq, Repr

/-- Modelled from the spec: the context `MotorTimerCtx` is declared in the missing
`motor.h`; its fields are those `motor.cc` assigns. The back pointer `motor` is the state
the functions below are applied to; `timer_handle = none` is the null handle. -/
structure MotorTimerCtx where
  timer_no : Nat
  motor_cmd : MotorTimerCMD
  timer_handle : Option Timer
  stopped : Bool
deriving DecidableEq, Repr

/-- A call of one of the actuation hooks `Start(speed)` and `Stop()`. -/
inductive Actuation where
  | Start (speed : Nat)
  | Stop
deriving DecidableEq, Repr

/-- Contents of the NVS namespace `NVS_NS_MOTOR_TIMER`: blobs by key, in iteration order. -/
abbrev Nvs := List (List Char × MotorTimerParam)

/-- The object `Motor` together with the store behind `nvs_handle_` and the trace of
actuation calls made so far. -/
structure Motor where
  is_initiated_ : Bool
  timer_params_ : List (Option MotorTimerParam)
  timer_ctxs_ : List (Option MotorTimerCtx)
  nvs : Nvs
  actuations : List Actuation
deriving DecidableEq, Repr

/-- How a call ended: it returned a code, it was aborted (`ESP_ERROR_CHECK`, a division by
zero, an access outside a vector), or its loop never ends. -/
inductive Exit where
  | returned (rc : esp_err_t)
  | aborted
  | diverged
deriving DecidableEq, Repr

/-- What line 110 of `motor.cc`, `ESP_ERROR_CHECK(xTimerStart(new_ctx->timer_handle, 0))`,
meets. `xTimerStart` answers `pdPASS` (1) when it has started the timer and `pdFAIL` (0)
when it has not; `rtc_ds3231.cc` line 57 asserts that answer. `ESP_ERROR_CHECK` aborts on
every value other than `ESP_OK` (0), so it aborts on `pdPASS` and lets `pdFAIL` through;
only a build that compiles the test out (`NDEBUG`) goes on after `pdPASS`. -/
inductive StartCheck where
  /-- Answer `pdPASS` with the test in place: the timer counts and the call is aborted. -/
  | pass_aborts
  /-- Answer `pdPASS` with the test compiled out: the timer counts and the call goes on. -/
  | pass_unchecked
  /-- Answer `pdFAIL`: the timer stays dormant and the call goes on. -/
  | fail
deriving DecidableEq, Repr

/-- How the call leaves line 110. -/
def StartCheck.exit : StartCheck → Exit
  | StartCheck.pass_aborts => Exit.aborted
  | StartCheck.pass_unchecked => Exit.returned ESP_OK
  | StartCheck.fail => Exit.returned ESP_OK

/-- Whether the timer counts after line 110. -/
def StartCheck.counting : StartCheck → Bool
  | StartCheck.pass_aborts => true
  | StartCheck.pass_unchecked => true
  | StartCheck.fail => false

/-- Answers of the platform during one call. -/
structure Platform where
  /-- Value of `get_curtime_ms()`. -/
  curtime_ms : Nat
  /-- Whether `xTimerCreate` hands out a timer (otherwise it returns null). -/
  xTimerCreate_ok : Bool
  /-- Answer of `xTimerStart` and what its `ESP_ERROR_CHECK` does with it. -/
  xTimerStart : StartCheck
  /-- Code returned by `nvs_set_blob`. -/
  nvs_set_blob_rc : esp_err_t
deriving DecidableEq, Repr

/-- Answers of the platform during `Motor::Init`. -/
structure InitPlatform where
  /-- Code returned by `nvs_open`. -/
  nvs_open_rc : esp_err_t
  /-- Code returned by `nvs_get_blob` for the entry with the given key. -/
  nvs_get_blob_rc : List Char → esp_err_t
  /-- Answers while the parameter of slot `i` is handled by `InitTimerContext`. -/
  slot : Nat → Platform

/-- The assignment `timer_ctxs_[slot].reset(ctx)`. -/
def Motor.set_ctx (m : Motor) (slot : Nat) (ctx : MotorTimerCtx) : Motor :=
  { m with timer_ctxs_ := m.timer_ctxs_.set slot (some ctx) }

/-- The lines 66-70 of `Motor::CreateTimer` when the write succeeds: the record goes to the
store under the decimal key of the slot, and a copy of it into `timer_params_[slot]`. -/
def Motor.store_param (m : Motor) (key : List Char) (slot : Nat) (param : MotorTimerParam) :
    Motor :=
  { m with
    nvs := m.nvs.filter (fun e => decide (e.1 ≠ key)) ++ [(key, param)]
    timer_params_ := m.timer_params_.set slot (some param) }

/-- A timer that counts down `ticks` ticks. -/
def Timer.armed (ticks : Nat) : Timer := { period_ticks := ticks, active := true }

/-- The constructor `Motor::Motor`: both tables have `kMaxNumTimers` empty entries, and
the engine is not yet initialised. -/
def Motor.new (cfg : Config) (store : Nvs) : Motor :=
  { is_initiated_ := false
    timer_params_ := List.replicate cfg.kMaxNumTimers none
    timer_ctxs_ := List.replicate cfg.kMaxNumTimers none
    nvs := store
    actuations := [] }

/-! ## Keys of the store: `sprintf("%d")` and `atoi` -/

/-- The character of a decimal digit. -/
def digitChar (d : Nat) : Char := Char.ofNat (48 + d)

/-- Decimal digits of `n` in front of `acc`; `fuel` bounds the number of digits. -/
def sprintf_d_aux : Nat → Nat → List Char → List Char
  | 0, _, acc => acc
  | fuel + 1, n, acc =>
    if n < 10 then digitChar n :: acc
    else sprintf_d_aux fuel (n / 10) (digitChar (n % 10) :: acc)

/-- The text `sprintf(buf, "%d", n)` writes for a non-negative `n`. -/
def sprintf_d (n : Nat) : List Char := sprintf_d_aux (n + 1) n []

/-- The digit loop of `atoi`: reads decimal digits until another character. -/
def atoi_digits : List Char → Nat → Nat
  | [], acc => acc
  | c :: cs, acc => if c.isDigit then atoi_digits cs (acc * 10 + (c.toNat - 48)) else acc

/-- The libc function `atoi`: leading white space, an optional sign, decimal digits. -/
def atoi (s : List Char) : Int :=
  match s.dropWhile Char.isWhitespace with
  | [] => 0
  | c :: cs =>
    if c = '-' then -((atoi_digits cs 0 : Nat) : Int)
    else if c = '+' then ((atoi_digits cs 0 : Nat) : Int)
    else ((atoi_digits (c :: cs) 0 : Nat) : Int)

/-- The conversion `uint8_t timer_no = atoi(entry.key)` of `Motor::Init`. -/
def key_slot (key : List Char) : Nat := (atoi key % 256).toNat

/-! ## Phase recovery: `Motor::InitTimerContext` -/

/-- The line `ticks_to_start = ticks_to_start == 0 ? 1 : ticks_to_start`. -/
def clamp_ticks (ticks : Nat) : Nat := if ticks = 0 then 1 else ticks

/-- The value of `ticks_to_start` in `Motor::InitTimerContext` (lines 86-95); `none` when
the source divides by zero in `offset_from_frist_start % param->period_ms`. The
difference `0 - offset_from_frist_start` is the mathematical one (the source overflows
`int64_t` at the single offset `-2^63`). -/
def ticks_to_start (cfg : Config) (curtime_ms : Nat) (param : MotorTimerParam) :
    Option Nat :=
  let offset_from_frist_start : Int :=
    toInt64 (curtime_ms % U64_MOD + U64_MOD - param.first_start_timestamp % U64_MOD)
  if offset_from_frist_start ≤ 0 then
    some (clamp_ticks (((0 - offset_from_frist_start).toNat / cfg.portTICK_PERIOD_MS) % TICK_MOD))
  else if param.period_ms = 0 then none
  else
    let offset_in_period : Nat := offset_from_frist_start.toNat % param.period_ms
    some (clamp_ticks (((param.period_ms - offset_in_period) / cfg.portTICK_PERIOD_MS) % TICK_MOD))

/-- The context `Motor::InitTimerContext` stores in `timer_ctxs_[param->timer_no]`. -/
def new_ctx (param : MotorTimerParam) (timer_handle : Option Timer) : MotorTimerCtx :=
  { timer_no := param.timer_no
    motor_cmd := MotorTimerCMD.START_MOTOR
    timer_handle := timer_handle
    stopped := false }

/-- The method `Motor::InitTimerContext`. The context is stored before `xTimerCreate` is
called, so it stays in the table when no timer is handed out. After the timer is created,
line 110 starts it and tests the answer (`StartCheck`): with the test in place the call
never returns `ESP_OK` with a counting timer. -/
def InitTimerContext (cfg : Config) (plat : Platform) (m : Motor) (param : MotorTimerParam) :
    Exit × Motor :=
  let curtime_ms := plat.curtime_ms % U64_MOD
  if param.period_ms < cfg.portTICK_PERIOD_MS ∧
      (param.first_start_timestamp + param.duration_ms) % U64_MOD ≤ curtime_ms then
    (Exit.returned ESP_OK, m)
  else
    match ticks_to_start cfg curtime_ms param with
    | none => (Exit.aborted, m)
    | some ticks =>
      if param.timer_no < m.timer_ctxs_.length then
        if plat.xTimerCreate_ok then
          (plat.xTimerStart.exit,
            m.set_ctx param.timer_no
              (new_ctx param
                (some { period_ticks := ticks, active := plat.xTimerStart.counting })))
        else
          (Exit.returned ESP_ERR_NO_MEM, m.set_ctx param.timer_no (new_ctx param none))
      else (Exit.aborted, m)

/-! ## Slot allocation: `Motor::CreateTimer` -/

/-- The slot search of `Motor::CreateTimer` (lines 54-56): the first index whose entry is
null, or the size of the table when there is none. -/
def find_free : List (Option MotorTimerParam) → Nat
  | [] => 0
  | none :: _ => 0
  | some _ :: rest => find_free rest + 1

/-- The method `Motor::CreateTimer`; the third component is the caller's `*param` after the
call. The counter `new_timer_no` is a `uint8_t`: when the search would have to pass 255
the loop never ends. -/
def CreateTimer (cfg : Config) (plat : Platform) (m : Motor) (param : MotorTimerParam) :
    Exit × Motor × MotorTimerParam :=
  if m.is_initiated_ = false then (Exit.returned ESP_ERR_INVALID_STATE, m, param)
  else
    let new_timer_no := find_free m.timer_params_
    if 256 ≤ new_timer_no then (Exit.diverged, m, param)
    else if m.timer_params_.length ≤ new_timer_no then
      (Exit.returned ESP_ERR_NO_MEM, m, param)
    else if cfg.portTICK_PERIOD_MS ≤ param.period_ms ∧ param.period_ms < param.duration_ms then
      (Exit.returned ESP_ERR_INVALID_ARG, m, param)
    else
      let param1 := { param with timer_no := new_timer_no }
      if plat.nvs_set_blob_rc ≠ ESP_OK then (Exit.returned plat.nvs_set_blob_rc, m, param1)
      else
        let m1 := m.store_param (sprintf_d new_timer_no) new_timer_no param1
        let r := InitTimerContext cfg plat m1 param1
        (r.1, r.2, param1)

/-! ## The transition handler: `Motor::TimerTask` -/

/-- The switch of `Motor::TimerTask` (lines 128-158): the actuation, `next_cmd` and
`ticks_to_next_cmd`. In the branch that leaves `next_cmd` unset the tick count is 0 and
the command is not read. -/
def TimerTask_switch (cfg : Config) (cmd : MotorTimerCMD) (timer_param : MotorTimerParam) :
    Actuation × MotorTimerCMD × Nat :=
  match cmd with
  | MotorTimerCMD.START_MOTOR =>
    if ms_sub cfg timer_param.period_ms timer_param.duration_ms / cfg.portTICK_PERIOD_MS = 0 then
      (Actuation.Start timer_param.speed, MotorTimerCMD.START_MOTOR,
        (timer_param.period_ms / cfg.portTICK_PERIOD_MS) % TICK_MOD)
    else
      (Actuation.Start timer_param.speed, MotorTimerCMD.STOP_MOTOR,
        (timer_param.duration_ms / cfg.portTICK_PERIOD_MS) % TICK_MOD)
  | MotorTimerCMD.STOP_MOTOR =>
    if timer_param.period_ms / cfg.portTICK_PERIOD_MS = 0 then
      (Actuation.Stop, MotorTimerCMD.STOP_MOTOR, 0)
    else
      (Actuation.Stop, MotorTimerCMD.START_MOTOR,
        (ms_sub cfg timer_param.period_ms timer_param.duration_ms / cfg.portTICK_PERIOD_MS)
          % TICK_MOD)

/-- A call of the virtual hook `Start(speed)` or `Stop()`: the call is recorded and the
hook returns `act_rc` (`ESP_OK` in the base class, anything in a driver). -/
def actuate (act_rc : esp_err_t) (m : Motor) (a : Actuation) : esp_err_t × Motor :=
  (act_rc, { m with actuations := m.actuations ++ [a] })

/-- The method `Motor::TimerTask` applied to the context stored in `timer_ctxs_[slot]`.
The code returned by `Start` or `Stop` is dropped, as in the source. `xTimerChangePeriod`
followed by `xTimerReset` leaves the timer counting the new period. The result is `none`
when there is no such context or when `timer_params_[ctx->timer_no]` is null or outside
the table, which the source dereferences. -/
def TimerTask (cfg : Config) (act_rc : esp_err_t) (m : Motor) (slot : Nat) : Option Motor :=
  match m.timer_ctxs_[slot]? with
  | some (some ctx) =>
    match m.timer_params_[ctx.timer_no]? with
    | some (some timer_param) =>
      let sw := TimerTask_switch cfg ctx.motor_cmd timer_param
      let m1 := (actuate act_rc m sw.1).2
      if sw.2.2 ≠ 0 then
        let ctx1 : MotorTimerCtx :=
          { ctx with
            motor_cmd := sw.2.1
            timer_handle := ctx.timer_handle.map (fun _ => Timer.armed sw.2.2) }
        some (m1.set_ctx slot ctx1)
      else some m1
    | _ => none
  | _ => none

/-- The callback `Motor::TimerTaskEntry` at the expiry of the timer of `timer_ctxs_[slot]`:
the one-shot timer goes dormant and `TimerTask` runs. The result is `none` when that slot
has no counting timer, so that nothing fires. -/
def TimerTaskEntry (cfg : Config) (act_rc : esp_err_t) (m : Motor) (slot : Nat) :
    Option Motor :=
  match m.timer_ctxs_[slot]? with
  | some (some ctx) =>
    match ctx.timer_handle with
    | some t =>
      if t.active then
        let ctx1 : MotorTimerCtx := { ctx with timer_handle := some { t with active := false } }
        TimerTask cfg act_rc (m.set_ctx slot ctx1) slot
      else none
    | none => none
  | _ => none

/-- A run of `n` consecutive expiries of the timer of one slot. -/
def fires (cfg : Config) (act_rc : esp_err_t) (slot : Nat) : Nat → Motor → Option Motor
  | 0, m => some m
  | n + 1, m => (TimerTaskEntry cfg act_rc m slot).bind (fires cfg act_rc slot n)

/-! ## Listing and clearing -/

/-- The method `Motor::ListTimers`; the second component is `*times` after the call. -/
def ListTimers (m : Motor) (times : List MotorTimerParam) :
    esp_err_t × List MotorTimerParam × Motor :=
  if m.is_initiated_ = false then (ESP_ERR_INVALID_STATE, times, m)
  else (ESP_OK, times, m)

/-- The method `Motor::ClearTimer`. -/
def ClearTimer (m : Motor) (_time_no : Nat) : esp_err_t × Motor :=
  if m.is_initiated_ = false then (ESP_ERR_INVALID_STATE, m)
  else (ESP_OK, m)

/-- The method `Motor::ClearAllTimers`. -/
def ClearAllTimers (m : Motor) : esp_err_t × Motor :=
  if m.is_initiated_ = false then (ESP_ERR_INVALID_STATE, m)
  else (ESP_OK, m)

/-! ## Start-up: `Motor::Init` -/

/-- The first loop of `Motor::Init` (lines 21-30): every blob of the namespace goes to the
slot `uint8_t timer_no = atoi(entry.key)`. The flag is `false` when the loop is aborted:
`ESP_ERROR_CHECK` on a code of `nvs_get_blob` other than `ESP_OK`, or a slot number
outside the table. -/
def Init_load (nvs_get_blob_rc : List Char → esp_err_t) :
    Nvs → List (Option MotorTimerParam) → Bool × List (Option MotorTimerParam)
  | [], ps => (true, ps)
  | (key, blob) :: rest, ps =>
    if nvs_get_blob_rc key ≠ ESP_OK then (false, ps)
    else
      let timer_no := key_slot key
      if timer_no < ps.length then
        Init_load nvs_get_blob_rc rest (ps.set timer_no (some blob))
      else (false, ps)

/-- The second loop of `Motor::Init` (lines 32-34) over the entries from index `i` on;
`plat i` holds the answers of the platform while slot `i` is handled. -/
def Init_arm (cfg : Config) (plat : Nat → Platform) :
    List (Option MotorTimerParam) → Nat → Motor → Exit × Motor
  | [], _, m => (Exit.returned ESP_OK, m)
  | none :: rest, i, m => Init_arm cfg plat rest (i + 1) m
  | some param :: rest, i, m =>
    let r := InitTimerContext cfg (plat i) m param
    if r.1 = Exit.returned ESP_OK then Init_arm cfg plat rest (i + 1) r.2
    else (Exit.aborted, r.2)

/-- The method `Motor::Init`. -/
def Init (cfg : Config) (plat : InitPlatform) (m : Motor) : Exit × Motor :=
  if plat.nvs_open_rc ≠ ESP_OK then (Exit.returned plat.nvs_open_rc, m)
  else
    let loaded := Init_load plat.nvs_get_blob_rc m.nvs m.timer_params_
    let m1 := { m with timer_params_ := loaded.2 }
    if loaded.1 = false then (Exit.aborted, m1)
    else
      let r := Init_arm cfg plat.slot loaded.2 0 m1
      if r.1 = Exit.returned ESP_OK then (Exit.returned ESP_OK, { r.2 with is_initiated_ := true })
      else r

/-! ## Predicates used in the statements -/

/-- A schedule is repeating when its period is at least one tick. -/
def repeating (cfg : Config) (p : MotorTimerParam) : Prop :=
  cfg.portTICK_PERIOD_MS ≤ p.period_ms

instance (cfg : Config) (p : MotorTimerParam) : Decidable (repeating cfg p) := by
  unfold repeating; infer_instance

/-- Every key of the store is the decimal text of a slot number below `size` and 256, as
`Motor::CreateTimer` writes them. -/
def Nvs.canonical (store : Nvs) (size : Nat) : Prop :=
  ∀ e ∈ store, ∃ i, i < size ∧ i < 256 ∧ e.1 = sprintf_d i

/-! ## Sample values -/

/-- A build with 10 ms ticks, four slots and 32 bit millisecond fields. -/
def demo_cfg : Config := { portTICK_PERIOD_MS := 10, kMaxNumTimers := 4, ms_bits := 32 }

/-- A repeating schedule: 300 ms on in every 1000 ms, first start at time 5000. -/
def demo_param : MotorTimerParam :=
  { speed := 7, period_ms := 1000, duration_ms := 300, first_start_timestamp := 5000,
    timer_no := 0 }

/-- A one-shot schedule: 5000 ms on, once, first start at time 20000. -/
def demo_oneshot : MotorTimerParam :=
  { speed := 3, period_ms := 0, duration_ms := 5000, first_start_timestamp := 20000,
    timer_no := 0 }

/-- An engine after `Init` over an empty store. -/
def demo_motor : Motor := { Motor.new demo_cfg [] with is_initiated_ := true }

/-- A platform on which every call succeeds, at the time `now`, for a build that compiles
the test of line 110 out, so that a started timer does not abort the call. -/
def demo_platform (now : Nat) : Platform :=
  { curtime_ms := now, xTimerCreate_ok := true, xTimerStart := StartCheck.pass_unchecked,
    nvs_set_blob_rc := ESP_OK }

/-- The same platform for a build with the test of line 110 in place. -/
def demo_platform_checked (now : Nat) : Platform :=
  { demo_platform now with xTimerStart := StartCheck.pass_aborts }

/-- The same platform when `xTimerStart` answers `pdFAIL`. -/
def demo_platform_unstarted (now : Nat) : Platform :=
  { demo_platform now with xTimerStart := StartCheck.fail }

/-- A platform on which every call of `Init` succeeds, at the time `now`. -/
def demo_init_platform (now : Nat) : InitPlatform :=
  { nvs_open_rc := ESP_OK, nvs_get_blob_rc := fun _ => ESP_OK, slot := fun _ => demo_platform now }

/-- Slot `n` holds the schedule `p` and a context in phase `cmd` whose timer counts
`ticks` ticks, and `acts` are the actuations so far. -/
def Phase (n : Nat) (p : MotorTimerParam) (m : Motor) (cmd : MotorTimerCMD) (ticks : Nat)
    (acts : List Actuation) : Prop :=
  m.timer_params_[n]? = some (some p) ∧
    m.timer_ctxs_[n]? = some (some ⟨n, cmd, some (Timer.armed ticks), false⟩) ∧
    m.actuations = acts

/-- The actuations of `k` complete cycles: `Start(speed)` then `Stop()`, `k` times. -/
def cycle_trace (speed : Nat) : Nat → List Actuation
  | 0 => []
  | k + 1 => Actuation.Start speed :: Actuation.Stop :: cycle_trace speed k

/-- The sample repeating schedule right after `CreateTimer` at its first start: slot 0 is
in the `START_MOTOR` phase and its timer counts 1 tick. -/
def demo_armed : Motor :=
  (CreateTimer demo_cfg (demo_platform 5000) demo_motor demo_param).2.1

/-- The sample one-shot schedule right after `CreateTimer` 10000 ms before its start:
slot 0 is in the `START_MOTOR` phase and its timer counts 1000 ticks. -/
def demo_oneshot_armed : Motor :=
  (CreateTimer demo_cfg (demo_platform 10000) demo_motor demo_oneshot).2.1

/-- A repeating schedule whose pause of 5 ms is shorter than a tick. -/
def demo_long : MotorTimerParam := { demo_param with duration_ms := 995 }

/-- A repeating schedule whose running time of 5 ms is shorter than a tick. -/
def demo_short : MotorTimerParam := { demo_param with duration_ms := 5 }

/-- A one-shot schedule whose running time of 5 ms is shorter than a tick. -/
def demo_short_oneshot : MotorTimerParam := { demo_oneshot with duration_ms := 5 }

/-- An event in the life of an engine: a restart of the device (a new engine object over
the same store), a call of `Init` or of `CreateTimer`, or the expiry of a slot's timer. -/
inductive Op where
  | restart
  | init (plat : InitPlatform)
  | create (plat : Platform) (param : MotorTimerParam)
  | fire (act_rc : esp_err_t) (slot : Nat)

/-- The state after an event. A call that does not return leaves the state it reached;
an expiry for a slot without a counting timer does not happen and leaves the state. -/
def Op.apply (cfg : Config) (m : Motor) : Op → Motor
  | Op.restart => Motor.new cfg m.nvs
  | Op.init plat => (Init cfg plat m).2
  | Op.create plat param => (CreateTimer cfg plat m param).2.1
  | Op.fire act_rc slot => (TimerTaskEntry cfg act_rc m slot).getD m

theorem toInt64_of_lt (n : Nat) (h : n < 2 ^ 63) : toInt64 n = (n : Int) := by
  unfold toInt64 U64_MOD
  have h1 : n % 2 ^ 64 = n := Nat.mod_eq_of_lt (by omega)
  rw [h1, if_pos h]

theorem ticks_to_start_future (cfg : Config) (now : Nat) (p : MotorTimerParam)
    (hfirst : p.first_start_timestamp < U64_MOD) (hlt : now < p.first_start_timestamp)
    (hoff : p.first_start_timestamp - now < 2 ^ 63) :
    ticks_to_start cfg now p =
      some (clamp_ticks (((p.first_start_timestamp - now) / cfg.portTICK_PERIOD_MS) % TICK_MOD)) := by
  unfold U64_MOD at hfirst
  have h1 : now % 2 ^ 64 = now := Nat.mod_eq_of_lt (by omega)
  have h2 : p.first_start_timestamp % 2 ^ 64 = p.first_start_timestamp := Nat.mod_eq_of_lt hfirst
  have h3 : (now + 2 ^ 64 - p.first_start_timestamp) % 2 ^ 64
      = now + 2 ^ 64 - p.first_start_timestamp := Nat.mod_eq_of_lt (by omega)
  have h4 : toInt64 (now + 2 ^ 64 - p.first_start_timestamp)
      = -((p.first_start_timestamp - now : Nat) : Int) := by
    unfold toInt64 U64_MOD
    rw [h3, if_neg (by omega)]
    omega
  unfold ticks_to_start U64_MOD
  simp only [h1, h2, h4]
  rw [if_pos (by omega)]
  have h5 : (0 - -((p.first_start_timestamp - now : Nat) : Int)).toNat
      = p.first_start_timestamp - now := by omega
  rw [h5]

theorem ticks_to_start_now (cfg : Config) (now : Nat) (p : MotorTimerParam)
    (hfirst : p.first_start_timestamp < U64_MOD) (heq : now = p.first_start_timestamp) :
    ticks_to_start cfg now p = some 1 := by
  unfold U64_MOD at hfirst
  subst heq
  have h2 : p.first_start_timestamp % 2 ^ 64 = p.first_start_timestamp := Nat.mod_eq_of_lt hfirst
  have h4 : toInt64 (p.first_start_timestamp + 2 ^ 64 - p.first_start_timestamp) = 0 := by
    have : p.first_start_timestamp + 2 ^ 64 - p.first_start_timestamp = 2 ^ 64 := by omega
    rw [this]; decide
  unfold ticks_to_start U64_MOD
  simp only [h2, h4]
  simp [clamp_ticks]

theorem ticks_to_start_past (cfg : Config) (now : Nat) (p : MotorTimerParam)
    (hnow : now < U64_MOD) (hgt : p.first_start_timestamp < now)
    (hoff : now - p.first_start_timestamp < 2 ^ 63) (hper : 0 < p.period_ms) :
    ticks_to_start cfg now p =
      some (clamp_ticks (((p.period_ms - (now - p.first_start_timestamp) % p.period_ms)
        / cfg.portTICK_PERIOD_MS) % TICK_MOD)) := by
  unfold U64_MOD at hnow
  have h1 : now % 2 ^ 64 = now := Nat.mod_eq_of_lt hnow
  have h2 : p.first_start_timestamp % 2 ^ 64 = p.first_start_timestamp :=
    Nat.mod_eq_of_lt (by omega)
  have h4 : toInt64 (now + 2 ^ 64 - p.first_start_timestamp)
      = ((now - p.first_start_timestamp : Nat) : Int) := by
    unfold toInt64 U64_MOD
    have h3 : (now + 2 ^ 64 - p.first_start_timestamp) % 2 ^ 64
        = now - p.first_start_timestamp := by omega
    rw [h3, if_pos hoff]
  unfold ticks_to_start U64_MOD
  simp only [h1, h2, h4]
  rw [if_neg (by omega), if_neg (by omega)]
  simp only [Int.toNat_ofNat]

/-! ## Phase recovery (C1, C2) -/

theorem InitTimerContext_armed (cfg : Config) (plat : Platform) (m : Motor)
    (p : MotorTimerParam) (ticks : Nat)
    (hlive : ¬(p.period_ms < cfg.portTICK_PERIOD_MS ∧
      (p.first_start_timestamp + p.duration_ms) % U64_MOD ≤ plat.curtime_ms % U64_MOD))
    (hticks : ticks_to_start cfg (plat.curtime_ms % U64_MOD) p = some ticks)
    (hslot : p.timer_no < m.timer_ctxs_.length) (hok : plat.xTimerCreate_ok = true) :
    InitTimerContext cfg plat m p =
      (plat.xTimerStart.exit,
        m.set_ctx p.timer_no (new_ctx p (some ⟨ticks, plat.xTimerStart.counting⟩))) := by
  unfold InitTimerContext
  simp only [hlive, hticks, hslot, hok, if_true, if_false]

/-- C1 (as amended). For a repeating schedule whose period in ticks fits `TickType_t` and
`first_start_timestamp ≤ now` with an offset below `2^63`, when `xTimerCreate` hands out a
timer: phase recovery leaves the engine with a context of command `START_MOTOR` in the
slot of the schedule, whose timer has the delay 1 tick when `now =
first_start_timestamp`, and otherwise `period_ms - ((now - first_start_timestamp) mod
period_ms)` divided by `portTICK_PERIOD_MS`, raised to 1 tick when the quotient is 0; the
timer counts when `xTimerStart` has started it. That millisecond value is positive and at
most `period_ms`. How the call ends after line 110 is not part of the statement. -/
theorem InitTimerContext_repeating (cfg : Config) (plat : Platform) (m : Motor)
    (p : MotorTimerParam) (hcfg : cfg.WF) (hrep : repeating cfg p)
    (hnow : plat.curtime_ms < U64_MOD)
    (hge : p.first_start_timestamp ≤ plat.curtime_ms)
    (hoff : plat.curtime_ms - p.first_start_timestamp < 2 ^ 63)
    (hfit : p.period_ms / cfg.portTICK_PERIOD_MS < TICK_MOD)
    (hslot : p.timer_no < m.timer_ctxs_.length) (hok : plat.xTimerCreate_ok = true) :
    (InitTimerContext cfg plat m p).2 =
      m.set_ctx p.timer_no (new_ctx p (some
        ⟨if plat.curtime_ms = p.first_start_timestamp then 1
          else clamp_ticks
            ((p.period_ms - (plat.curtime_ms - p.first_start_timestamp) % p.period_ms)
              / cfg.portTICK_PERIOD_MS),
          plat.xTimerStart.counting⟩)) ∧
      0 < p.period_ms - (plat.curtime_ms - p.first_start_timestamp) % p.period_ms ∧
      p.period_ms - (plat.curtime_ms - p.first_start_timestamp) % p.period_ms ≤ p.period_ms := by
  obtain ⟨hT, -, -, -⟩ := hcfg
  unfold repeating at hrep
  have hper : 0 < p.period_ms := by omega
  have hmod : (plat.curtime_ms - p.first_start_timestamp) % p.period_ms < p.period_ms :=
    Nat.mod_lt _ hper
  have hnow1 : plat.curtime_ms % U64_MOD = plat.curtime_ms := Nat.mod_eq_of_lt hnow
  refine ⟨?_, by omega, by omega⟩
  rw [InitTimerContext_armed cfg plat m p _ _ _ hslot hok]
  · intro h; omega
  · rw [hnow1]
    by_cases heq : plat.curtime_ms = p.first_start_timestamp
    · rw [if_pos heq]
      exact ticks_to_start_now cfg _ p (by omega) heq
    · rw [if_neg heq, ticks_to_start_past cfg _ p hnow (by omega) hoff hper]
      have hle : (p.period_ms - (plat.curtime_ms - p.first_start_timestamp) % p.period_ms)
          / cfg.portTICK_PERIOD_MS ≤ p.period_ms / cfg.portTICK_PERIOD_MS :=
        Nat.div_le_div_right (by omega)
      rw [Nat.mod_eq_of_lt (by omega)]

/-- Witness of C1: the sample schedule 777 ms after its first start, on a build with the
test of line 110 in place; the timer of slot 0 has 22 ticks. -/
theorem InitTimerContext_repeating_witness :
    (InitTimerContext demo_cfg (demo_platform_checked 5777) demo_motor demo_param).2 =
      demo_motor.set_ctx demo_param.timer_no (new_ctx demo_param (some
        ⟨if (demo_platform_checked 5777).curtime_ms = demo_param.first_start_timestamp then 1
          else clamp_ticks
            ((demo_param.period_ms -
              ((demo_platform_checked 5777).curtime_ms - demo_param.first_start_timestamp)
                % demo_param.period_ms) / demo_cfg.portTICK_PERIOD_MS),
          (demo_platform_checked 5777).xTimerStart.counting⟩)) ∧
      0 < demo_param.period_ms -
        ((demo_platform_checked 5777).curtime_ms - demo_param.first_start_timestamp)
          % demo_param.period_ms ∧
      demo_param.period_ms -
        ((demo_platform_checked 5777).curtime_ms - demo_param.first_start_timestamp)
          % demo_param.period_ms ≤ demo_param.period_ms :=
  InitTimerContext_repeating demo_cfg (demo_platform_checked 5777) demo_motor demo_param
    (by decide) (by decide) (by decide) (by decide) (by decide) (by decide) (by decide) rfl

/-- C1 as stated fails. At `now = first_start_timestamp` the sample schedule is armed with
1 tick, not with the claimed 100 ticks, and 995 ms after the first start it is armed with
1 tick, not with the claimed 0 ticks. -/
theorem InitTimerContext_repeating_counterexample :
    repeating demo_cfg demo_param ∧ demo_param.first_start_timestamp ≤ 5000 ∧
    (InitTimerContext demo_cfg (demo_platform 5000) demo_motor demo_param).2.timer_ctxs_[0]?
      = some (some (new_ctx demo_param (some (Timer.armed 1)))) ∧
    (InitTimerContext demo_cfg (demo_platform 5000) demo_motor demo_param).2.timer_ctxs_[0]?
      ≠ some (some (new_ctx demo_param (some (Timer.armed
          ((demo_param.period_ms - (5000 - demo_param.first_start_timestamp)
            % demo_param.period_ms) / demo_cfg.portTICK_PERIOD_MS))))) ∧
    (InitTimerContext demo_cfg (demo_platform 5995) demo_motor demo_param).2.timer_ctxs_[0]?
      = some (some (new_ctx demo_param (some (Timer.armed 1)))) ∧
    (InitTimerContext demo_cfg (demo_platform 5995) demo_motor demo_param).2.timer_ctxs_[0]?
      ≠ some (some (new_ctx demo_param (some (Timer.armed
          ((demo_param.period_ms - (5995 - demo_param.first_start_timestamp)
            % demo_param.period_ms) / demo_cfg.portTICK_PERIOD_MS))))) := by
  decide

theorem InitTimerContext_future (cfg : Config) (plat : Platform) (m : Motor)
    (p : MotorTimerParam) (hcfg : cfg.WF)
    (hfirst : p.first_start_timestamp < U64_MOD)
    (hlt : plat.curtime_ms < p.first_start_timestamp)
    (hoff : p.first_start_timestamp - plat.curtime_ms < 2 ^ 63)
    (hsum : p.first_start_timestamp + p.duration_ms < U64_MOD)
    (hfit : (p.first_start_timestamp - plat.curtime_ms) / cfg.portTICK_PERIOD_MS < TICK_MOD)
    (hslot : p.timer_no < m.timer_ctxs_.length) (hok : plat.xTimerCreate_ok = true) :
    InitTimerContext cfg plat m p =
      (plat.xTimerStart.exit,
        m.set_ctx p.timer_no (new_ctx p (some
          ⟨if (p.first_start_timestamp - plat.curtime_ms) / cfg.portTICK_PERIOD_MS = 0 then 1
            else (p.first_start_timestamp - plat.curtime_ms) / cfg.portTICK_PERIOD_MS,
            plat.xTimerStart.counting⟩))) ∧
      (if (p.first_start_timestamp - plat.curtime_ms) / cfg.portTICK_PERIOD_MS = 0 then 1
        else (p.first_start_timestamp - plat.curtime_ms) / cfg.portTICK_PERIOD_MS) ≠ 0 := by
  have _hT := hcfg.1
  have hnow1 : plat.curtime_ms % U64_MOD = plat.curtime_ms := Nat.mod_eq_of_lt (by omega)
  refine ⟨?_, ?_⟩
  · apply InitTimerContext_armed cfg plat m p _ _ _ hslot hok
    · rw [hnow1, Nat.mod_eq_of_lt hsum]
      intro h; omega
    · rw [hnow1, ticks_to_start_future cfg _ p hfirst hlt hoff, Nat.mod_eq_of_lt hfit]
      rfl
  · split <;> omega

/-- C2, what the code does. The sample schedule 1234 ms before its first start, on a build
with the test of line 110 in place: the timer is created with the claimed 123 ticks and
started, `xTimerStart` answers `pdPASS`, and `ESP_ERROR_CHECK` aborts the call on that
answer, so phase recovery does not complete. When `xTimerStart` answers `pdFAIL` the call
returns `ESP_OK` and the timer of the context is dormant. -/
theorem InitTimerContext_future_aborts :
    (demo_platform_checked 3766).curtime_ms < demo_param.first_start_timestamp ∧
    (demo_param.first_start_timestamp - (demo_platform_checked 3766).curtime_ms)
      / demo_cfg.portTICK_PERIOD_MS = 123 ∧
    InitTimerContext demo_cfg (demo_platform_checked 3766) demo_motor demo_param
      = (Exit.aborted, demo_motor.set_ctx 0 (new_ctx demo_param (some (Timer.armed 123)))) ∧
    InitTimerContext demo_cfg (demo_platform_unstarted 3766) demo_motor demo_param
      = (Exit.returned ESP_OK,
          demo_motor.set_ctx 0 (new_ctx demo_param (some ⟨123, false⟩))) := by
  decide

/-! ## The transition handler (C3) -/

theorem TimerTaskEntry_eq (cfg : Config) (act_rc : esp_err_t) (m : Motor) (n : Nat)
    (ctx : MotorTimerCtx) (t : Timer) (tp : MotorTimerParam)
    (hctx : m.timer_ctxs_[n]? = some (some ctx)) (hh : ctx.timer_handle = some t)
    (hact : t.active = true) (hp : m.timer_params_[ctx.timer_no]? = some (some tp)) :
    ∃ m1, TimerTaskEntry cfg act_rc m n = some m1 ∧
      m1.is_initiated_ = m.is_initiated_ ∧ m1.timer_params_ = m.timer_params_ ∧
      m1.nvs = m.nvs ∧
      m1.actuations = m.actuations ++ [(TimerTask_switch cfg ctx.motor_cmd tp).1] ∧
      m1.timer_ctxs_ = m.timer_ctxs_.set n (some
        (if (TimerTask_switch cfg ctx.motor_cmd tp).2.2 ≠ 0 then
          ⟨ctx.timer_no, (TimerTask_switch cfg ctx.motor_cmd tp).2.1,
            some (Timer.armed (TimerTask_switch cfg ctx.motor_cmd tp).2.2), ctx.stopped⟩
        else ⟨ctx.timer_no, ctx.motor_cmd, some ⟨t.period_ticks, false⟩, ctx.stopped⟩)) := by
  have hn : n < m.timer_ctxs_.length := by
    rcases List.getElem?_eq_some.mp hctx with ⟨h, -⟩
    exact h
  unfold TimerTaskEntry
  simp only [hctx, hh, hact, if_true]
  unfold TimerTask
  simp only [Motor.set_ctx, actuate, List.getElem?_set_self hn, hp]
  by_cases hz : (TimerTask_switch cfg ctx.motor_cmd tp).2.2 = 0
  · simp [hz]
  · simp [hz, List.set_set, Timer.armed]

theorem ms_sub_eq (cfg : Config) (a b : Nat) (ha : a < 2 ^ cfg.ms_bits) (hb : b ≤ a) :
    ms_sub cfg a b = a - b := by
  unfold ms_sub
  have hb1 : b % 2 ^ cfg.ms_bits = b := Nat.mod_eq_of_lt (by omega)
  have : a + 2 ^ cfg.ms_bits - b = (a - b) + 2 ^ cfg.ms_bits := by omega
  rw [Nat.mod_eq_of_lt ha, hb1, this, Nat.add_mod_right, Nat.mod_eq_of_lt (by omega)]

theorem Phase_start_step (cfg : Config) (act_rc : esp_err_t) (n : Nat) (p : MotorTimerParam)
    (m : Motor) (ticks : Nat) (acts : List Actuation)
    (hp : p.WF cfg)
    (hdur : 1 ≤ p.duration_ms / cfg.portTICK_PERIOD_MS)
    (hgap : 1 ≤ (p.period_ms - p.duration_ms) / cfg.portTICK_PERIOD_MS)
    (hfit : p.period_ms / cfg.portTICK_PERIOD_MS < TICK_MOD)
    (h : Phase n p m MotorTimerCMD.START_MOTOR ticks acts) :
    ∃ m1, TimerTaskEntry cfg act_rc m n = some m1 ∧
      Phase n p m1 MotorTimerCMD.STOP_MOTOR (p.duration_ms / cfg.portTICK_PERIOD_MS)
        (acts ++ [Actuation.Start p.speed]) := by
  obtain ⟨hpar, hctx, hacts⟩ := h
  have hn : n < m.timer_ctxs_.length := by
    rcases List.getElem?_eq_some.mp hctx with ⟨h, -⟩
    exact h
  have hle : p.duration_ms ≤ p.period_ms := by
    by_contra hc
    have : p.period_ms - p.duration_ms = 0 := by omega
    rw [this, Nat.zero_div] at hgap
    omega
  have hsub := ms_sub_eq cfg p.period_ms p.duration_ms hp.1 hle
  have hdle : p.duration_ms / cfg.portTICK_PERIOD_MS ≤ p.period_ms / cfg.portTICK_PERIOD_MS :=
    Nat.div_le_div_right hle
  have hsw : TimerTask_switch cfg MotorTimerCMD.START_MOTOR p =
      (Actuation.Start p.speed, MotorTimerCMD.STOP_MOTOR,
        p.duration_ms / cfg.portTICK_PERIOD_MS) := by
    unfold TimerTask_switch
    simp only [hsub]
    rw [if_neg (by omega), Nat.mod_eq_of_lt (by omega)]
  obtain ⟨m1, h1, -, h3, -, h5, h6⟩ :=
    TimerTaskEntry_eq cfg act_rc m n _ (Timer.armed ticks) p hctx rfl rfl hpar
  refine ⟨m1, h1, ?_, ?_, ?_⟩
  · rw [h3]; exact hpar
  · rw [h6, List.getElem?_set_self hn]
    simp only [hsw]
    rw [if_pos (by omega)]
  · rw [h5, hacts, hsw]

theorem Phase_stop_step (cfg : Config) (act_rc : esp_err_t) (n : Nat) (p : MotorTimerParam)
    (m : Motor) (ticks : Nat) (acts : List Actuation)
    (hp : p.WF cfg)
    (hgap : 1 ≤ (p.period_ms - p.duration_ms) / cfg.portTICK_PERIOD_MS)
    (hfit : p.period_ms / cfg.portTICK_PERIOD_MS < TICK_MOD)
    (h : Phase n p m MotorTimerCMD.STOP_MOTOR ticks acts) :
    ∃ m1, TimerTaskEntry cfg act_rc m n = some m1 ∧
      Phase n p m1 MotorTimerCMD.START_MOTOR
        ((p.period_ms - p.duration_ms) / cfg.portTICK_PERIOD_MS)
        (acts ++ [Actuation.Stop]) := by
  obtain ⟨hpar, hctx, hacts⟩ := h
  have hn : n < m.timer_ctxs_.length := by
    rcases List.getElem?_eq_some.mp hctx with ⟨h, -⟩
    exact h
  have hle : p.duration_ms ≤ p.period_ms := by
    by_contra hc
    have : p.period_ms - p.duration_ms = 0 := by omega
    rw [this, Nat.zero_div] at hgap
    omega
  have hsub := ms_sub_eq cfg p.period_ms p.duration_ms hp.1 hle
  have hgle : (p.period_ms - p.duration_ms) / cfg.portTICK_PERIOD_MS
      ≤ p.period_ms / cfg.portTICK_PERIOD_MS := Nat.div_le_div_right (by omega)
  have hsw : TimerTask_switch cfg MotorTimerCMD.STOP_MOTOR p =
      (Actuation.Stop, MotorTimerCMD.START_MOTOR,
        (p.period_ms - p.duration_ms) / cfg.portTICK_PERIOD_MS) := by
    unfold TimerTask_switch
    simp only [hsub]
    rw [if_neg (by omega), Nat.mod_eq_of_lt (by omega)]
  obtain ⟨m1, h1, -, h3, -, h5, h6⟩ :=
    TimerTaskEntry_eq cfg act_rc m n _ (Timer.armed ticks) p hctx rfl rfl hpar
  refine ⟨m1, h1, ?_, ?_, ?_⟩
  · rw [h3]; exact hpar
  · rw [h6, List.getElem?_set_self hn]
    simp only [hsw]
    rw [if_pos (by omega)]
  · rw [h5, hacts, hsw]

theorem fires_succ (cfg : Config) (act_rc : esp_err_t) (n j : Nat) (m : Motor) :
    fires cfg act_rc n (j + 1) m =
      (TimerTaskEntry cfg act_rc m n).bind (fires cfg act_rc n j) := rfl

theorem fires_cycle (cfg : Config) (act_rc : esp_err_t) (n : Nat) (p : MotorTimerParam)
    (hp : p.WF cfg)
    (hdur : 1 ≤ p.duration_ms / cfg.portTICK_PERIOD_MS)
    (hgap : 1 ≤ (p.period_ms - p.duration_ms) / cfg.portTICK_PERIOD_MS)
    (hfit : p.period_ms / cfg.portTICK_PERIOD_MS < TICK_MOD) (k : Nat) :
    ∀ (m : Motor) (ticks : Nat) (acts : List Actuation),
      Phase n p m MotorTimerCMD.START_MOTOR ticks acts →
      (∃ m1, fires cfg act_rc n (2 * k + 1) m = some m1 ∧
        Phase n p m1 MotorTimerCMD.STOP_MOTOR (p.duration_ms / cfg.portTICK_PERIOD_MS)
          (acts ++ cycle_trace p.speed k ++ [Actuation.Start p.speed])) ∧
      (∃ m2, fires cfg act_rc n (2 * k + 2) m = some m2 ∧
        Phase n p m2 MotorTimerCMD.START_MOTOR
          ((p.period_ms - p.duration_ms) / cfg.portTICK_PERIOD_MS)
          (acts ++ cycle_trace p.speed (k + 1))) := by
  induction k with
  | zero =>
    intro m ticks acts h
    obtain ⟨m1, e1, ph1⟩ := Phase_start_step cfg act_rc n p m ticks acts hp hdur hgap hfit h
    obtain ⟨m2, e2, ph2⟩ := Phase_stop_step cfg act_rc n p m1 _ _ hp hgap hfit ph1
    constructor
    · refine ⟨m1, ?_, ?_⟩
      · simp [fires, e1]
      · simpa [cycle_trace] using ph1
    · refine ⟨m2, ?_, ?_⟩
      · simp [fires, e1, e2]
      · simpa [cycle_trace] using ph2
  | succ k ih =>
    intro m ticks acts h
    obtain ⟨m1, e1, ph1⟩ := Phase_start_step cfg act_rc n p m ticks acts hp hdur hgap hfit h
    obtain ⟨m2, e2, ph2⟩ := Phase_stop_step cfg act_rc n p m1 _ _ hp hgap hfit ph1
    obtain ⟨⟨a, ea, pa⟩, ⟨b, eb, pb⟩⟩ := ih m2 _ _ ph2
    constructor
    · refine ⟨a, ?_, ?_⟩
      · have : 2 * (k + 1) + 1 = (2 * k + 1) + 1 + 1 := by omega
        rw [this, fires_succ, e1, Option.some_bind, fires_succ, e2, Option.some_bind]
        exact ea
      · simpa [cycle_trace, List.append_assoc] using pa
    · refine ⟨b, ?_, ?_⟩
      · have : 2 * (k + 1) + 2 = (2 * k + 2) + 1 + 1 := by omega
        rw [this, fires_succ, e1, Option.some_bind, fires_succ, e2, Option.some_bind]
        exact eb
      · simpa [cycle_trace, List.append_assoc] using pb

/-! ## Slot search -/

theorem find_free_le (l : List (Option MotorTimerParam)) : find_free l ≤ l.length := by
  induction l with
  | nil => simp [find_free]
  | cons x xs ih => cases x <;> simp [find_free, ih]

theorem find_free_spec (l : List (Option MotorTimerParam)) (h : find_free l < l.length) :
    l[find_free l]? = some none := by
  induction l with
  | nil => simp [find_free] at h
  | cons x xs ih =>
    cases x with
    | none => simp [find_free]
    | some v =>
      simp only [find_free, List.length_cons, Nat.add_lt_add_iff_right] at h
      simpa [find_free] using ih h

theorem find_free_min (l : List (Option MotorTimerParam)) (i : Nat) (h : i < find_free l) :
    ∃ v, l[i]? = some (some v) := by
  induction l generalizing i with
  | nil => simp [find_free] at h
  | cons x xs ih =>
    cases x with
    | none => simp [find_free] at h
    | some v =>
      cases i with
      | zero => exact ⟨v, by simp⟩
      | succ j =>
        simp only [find_free, Nat.add_lt_add_iff_right] at h
        simpa using ih j h

theorem find_free_full (l : List (Option MotorTimerParam)) (h : ∀ x ∈ l, x ≠ none) :
    find_free l = l.length := by
  induction l with
  | nil => simp [find_free]
  | cons x xs ih =>
    cases x with
    | none => exact absurd rfl (h none (by simp))
    | some v =>
      simp only [find_free, List.length_cons, Nat.add_right_cancel_iff]
      exact ih (fun y hy => h y (by simp [hy]))

/-! ## Slot allocation -/

theorem CreateTimer_accept (cfg : Config) (plat : Platform) (m : Motor) (p : MotorTimerParam)
    (hinit : m.is_initiated_ = true)
    (hfree : find_free m.timer_params_ < m.timer_params_.length)
    (h256 : find_free m.timer_params_ < 256)
    (hvalid : ¬(cfg.portTICK_PERIOD_MS ≤ p.period_ms ∧ p.period_ms < p.duration_ms))
    (hnvs : plat.nvs_set_blob_rc = ESP_OK) :
    CreateTimer cfg plat m p =
      ((InitTimerContext cfg plat
          (m.store_param (sprintf_d (find_free m.timer_params_)) (find_free m.timer_params_)
            { p with timer_no := find_free m.timer_params_ })
          { p with timer_no := find_free m.timer_params_ }).1,
        (InitTimerContext cfg plat
          (m.store_param (sprintf_d (find_free m.timer_params_)) (find_free m.timer_params_)
            { p with timer_no := find_free m.timer_params_ })
          { p with timer_no := find_free m.timer_params_ }).2,
        { p with timer_no := find_free m.timer_params_ }) := by
  unfold CreateTimer
  rw [if_neg (by simp [hinit]), if_neg (by omega), if_neg (by omega), if_neg hvalid,
    if_neg (by simp [hnvs])]

/-- The cycle on a build that compiles the test of line 110 out. A repeating schedule
with at least one tick of running time and one tick of pause, created at `now =
first_start_timestamp` (delays fitting `TickType_t`; the store write, the timer creation
and its start succeeding): `CreateTimer` returns `ESP_OK` and leaves slot `n`, the first
free one, in the `START_MOTOR` phase with a delay of 1 tick; the fire number `2k+1` calls
`Start(speed)` and leaves the `STOP_MOTOR` phase with the delay `duration_ms` in ticks;
the fire number `2k+2` calls `Stop()` and leaves the `START_MOTOR` phase with the delay
`period_ms - duration_ms` in ticks; this for every `k`. -/
theorem CreateTimer_cycle (cfg : Config) (plat : Platform) (m : Motor) (p : MotorTimerParam)
    (hp : p.WF cfg) (hinit : m.is_initiated_ = true)
    (hfree : find_free m.timer_params_ < m.timer_params_.length)
    (h256 : find_free m.timer_params_ < 256)
    (hlen : m.timer_ctxs_.length = m.timer_params_.length)
    (hrep : repeating cfg p)
    (hdur : 1 ≤ p.duration_ms / cfg.portTICK_PERIOD_MS)
    (hgap : 1 ≤ (p.period_ms - p.duration_ms) / cfg.portTICK_PERIOD_MS)
    (hfit : p.period_ms / cfg.portTICK_PERIOD_MS < TICK_MOD)
    (hnow : plat.curtime_ms = p.first_start_timestamp)
    (hnvs : plat.nvs_set_blob_rc = ESP_OK) (hok : plat.xTimerCreate_ok = true)
    (hstart : plat.xTimerStart = StartCheck.pass_unchecked) :
    (CreateTimer cfg plat m p).1 = Exit.returned ESP_OK ∧
    Phase (find_free m.timer_params_) { p with timer_no := find_free m.timer_params_ }
      (CreateTimer cfg plat m p).2.1 MotorTimerCMD.START_MOTOR 1 m.actuations ∧
    ∀ (act_rc : esp_err_t) (k : Nat),
      (∃ m1, fires cfg act_rc (find_free m.timer_params_) (2 * k + 1)
          (CreateTimer cfg plat m p).2.1 = some m1 ∧
        Phase (find_free m.timer_params_) { p with timer_no := find_free m.timer_params_ } m1
          MotorTimerCMD.STOP_MOTOR (p.duration_ms / cfg.portTICK_PERIOD_MS)
          (m.actuations ++ cycle_trace p.speed k ++ [Actuation.Start p.speed])) ∧
      (∃ m2, fires cfg act_rc (find_free m.timer_params_) (2 * k + 2)
          (CreateTimer cfg plat m p).2.1 = some m2 ∧
        Phase (find_free m.timer_params_) { p with timer_no := find_free m.timer_params_ } m2
          MotorTimerCMD.START_MOTOR ((p.period_ms - p.duration_ms) / cfg.portTICK_PERIOD_MS)
          (m.actuations ++ cycle_trace p.speed (k + 1))) := by
  have hle : p.duration_ms ≤ p.period_ms := by
    by_contra hc
    have : p.period_ms - p.duration_ms = 0 := by omega
    rw [this, Nat.zero_div] at hgap
    omega
  have hacc := CreateTimer_accept cfg plat m p hinit hfree h256 (by omega) hnvs
  have hfirst : p.first_start_timestamp < U64_MOD := hp.2.2.1
  have hnow1 : plat.curtime_ms % U64_MOD = plat.curtime_ms :=
    Nat.mod_eq_of_lt (by omega)
  have harm := InitTimerContext_armed cfg plat
    (m.store_param (sprintf_d (find_free m.timer_params_)) (find_free m.timer_params_)
      { p with timer_no := find_free m.timer_params_ })
    { p with timer_no := find_free m.timer_params_ } 1
    (by unfold repeating at hrep; intro h; exact absurd h.1 (by simpa using hrep))
    (by rw [hnow1]; exact ticks_to_start_now cfg _ _ hfirst hnow)
    (by simp only [Motor.store_param]; omega) hok
  rw [hstart] at harm
  simp only [StartCheck.exit, StartCheck.counting] at harm
  rw [harm] at hacc
  have hph : Phase (find_free m.timer_params_) { p with timer_no := find_free m.timer_params_ }
      (CreateTimer cfg plat m p).2.1 MotorTimerCMD.START_MOTOR 1 m.actuations := by
    rw [hacc]
    refine ⟨?_, ?_, ?_⟩
    · simp only [Motor.set_ctx, Motor.store_param]
      exact List.getElem?_set_self hfree
    · simp only [Motor.set_ctx, Motor.store_param, new_ctx, Timer.armed]
      exact List.getElem?_set_self (by omega)
    · rfl
  refine ⟨by rw [hacc], hph, fun act_rc k => ?_⟩
  exact fires_cycle cfg act_rc (find_free m.timer_params_)
    { p with timer_no := find_free m.timer_params_ } ⟨hp.1, hp.2.1, hp.2.2.1, h256⟩
    hdur hgap hfit k _ _ _ hph

/-- The cycle of the sample schedule (`period_ms = 1000`, `duration_ms = 300`) created at
its first start, on a build that compiles the test of line 110 out. -/
theorem CreateTimer_cycle_witness :
    (CreateTimer demo_cfg (demo_platform 5000) demo_motor demo_param).1
      = Exit.returned ESP_OK ∧
    Phase (find_free demo_motor.timer_params_)
      { demo_param with timer_no := find_free demo_motor.timer_params_ }
      (CreateTimer demo_cfg (demo_platform 5000) demo_motor demo_param).2.1
      MotorTimerCMD.START_MOTOR 1 demo_motor.actuations ∧
    ∀ (act_rc : esp_err_t) (k : Nat),
      (∃ m1, fires demo_cfg act_rc (find_free demo_motor.timer_params_) (2 * k + 1)
          (CreateTimer demo_cfg (demo_platform 5000) demo_motor demo_param).2.1 = some m1 ∧
        Phase (find_free demo_motor.timer_params_)
          { demo_param with timer_no := find_free demo_motor.timer_params_ } m1
          MotorTimerCMD.STOP_MOTOR (demo_param.duration_ms / demo_cfg.portTICK_PERIOD_MS)
          (demo_motor.actuations ++ cycle_trace demo_param.speed k
            ++ [Actuation.Start demo_param.speed])) ∧
      (∃ m2, fires demo_cfg act_rc (find_free demo_motor.timer_params_) (2 * k + 2)
          (CreateTimer demo_cfg (demo_platform 5000) demo_motor demo_param).2.1 = some m2 ∧
        Phase (find_free demo_motor.timer_params_)
          { demo_param with timer_no := find_free demo_motor.timer_params_ } m2
          MotorTimerCMD.START_MOTOR
          ((demo_param.period_ms - demo_param.duration_ms) / demo_cfg.portTICK_PERIOD_MS)
          (demo_motor.actuations ++ cycle_trace demo_param.speed (k + 1))) :=
  CreateTimer_cycle demo_cfg (demo_platform 5000) demo_motor demo_param
    (by decide) rfl (by decide) (by decide) (by decide) (by decide) (by decide) (by decide)
    (by decide) rfl rfl rfl rfl

/-- C3, what the code does. The scenario `period_ms = 1000`, `duration_ms = 300` created
at `now = first_start_timestamp`, on a build with the test of line 110 in place: the timer
of slot 0 is created with 1 tick and started, `xTimerStart` answers `pdPASS`, and
`ESP_ERROR_CHECK` aborts `CreateTimer` on that answer, so the engine is not there for the
first fire. When `xTimerStart` answers `pdFAIL`, `CreateTimer` returns `ESP_OK`, the timer
of slot 0 is dormant and nothing fires. -/
theorem CreateTimer_scenario_aborts :
    repeating demo_cfg demo_param ∧
    1 ≤ demo_param.duration_ms / demo_cfg.portTICK_PERIOD_MS ∧
    1 ≤ (demo_param.period_ms - demo_param.duration_ms) / demo_cfg.portTICK_PERIOD_MS ∧
    (demo_platform_checked 5000).curtime_ms = demo_param.first_start_timestamp ∧
    (CreateTimer demo_cfg (demo_platform_checked 5000) demo_motor demo_param).1
      = Exit.aborted ∧
    (CreateTimer demo_cfg (demo_platform_checked 5000) demo_motor
        demo_param).2.1.timer_ctxs_[0]?
      = some (some (new_ctx demo_param (some (Timer.armed 1)))) ∧
    (CreateTimer demo_cfg (demo_platform_unstarted 5000) demo_motor demo_param).1
      = Exit.returned ESP_OK ∧
    (CreateTimer demo_cfg (demo_platform_unstarted 5000) demo_motor
        demo_param).2.1.timer_ctxs_[0]?
      = some (some (new_ctx demo_param (some ⟨1, false⟩))) ∧
    TimerTaskEntry demo_cfg 0
        (CreateTimer demo_cfg (demo_platform_unstarted 5000) demo_motor demo_param).2.1 0
      = none := by
  decide

theorem InitTimerContext_checked (cfg : Config) (plat : Platform) (m : Motor)
    (p : MotorTimerParam) (hchk : plat.xTimerStart ≠ StartCheck.pass_unchecked)
    (hret : (InitTimerContext cfg plat m p).1 = Exit.returned ESP_OK) :
    (InitTimerContext cfg plat m p).2 = m ∨
    ∃ ticks, (InitTimerContext cfg plat m p).2
      = m.set_ctx p.timer_no (new_ctx p (some ⟨ticks, false⟩)) := by
  have hs : plat.xTimerStart.exit = Exit.returned ESP_OK →
      plat.xTimerStart.counting = false := by
    revert hchk
    cases plat.xTimerStart <;> simp [StartCheck.exit, StartCheck.counting]
  by_cases hlive : p.period_ms < cfg.portTICK_PERIOD_MS ∧
      (p.first_start_timestamp + p.duration_ms) % U64_MOD ≤ plat.curtime_ms % U64_MOD
  · left
    unfold InitTimerContext
    simp only [hlive, and_self, if_true]
  rcases ht : ticks_to_start cfg (plat.curtime_ms % U64_MOD) p with _ | ticks
  · left
    unfold InitTimerContext
    simp only [hlive, ht, if_false]
  by_cases hslot : p.timer_no < m.timer_ctxs_.length
  · by_cases hok : plat.xTimerCreate_ok = true
    · have harm := InitTimerContext_armed cfg plat m p ticks hlive ht hslot hok
      rw [harm] at hret ⊢
      right
      exact ⟨ticks, by simp only [hs hret]⟩
    · exfalso
      unfold InitTimerContext at hret
      simp only [hlive, ht, hslot, hok, if_true, if_false] at hret
      exact absurd hret (by simp [ESP_ERR_NO_MEM, ESP_OK])
  · left
    unfold InitTimerContext
    simp only [hlive, ht, hslot, if_false]

theorem InitTimerContext_frame (cfg : Config) (plat : Platform) (m : Motor)
    (p : MotorTimerParam) :
    (InitTimerContext cfg plat m p).2.timer_params_ = m.timer_params_ ∧
    (InitTimerContext cfg plat m p).2.nvs = m.nvs ∧
    (InitTimerContext cfg plat m p).2.is_initiated_ = m.is_initiated_ ∧
    (InitTimerContext cfg plat m p).2.actuations = m.actuations ∧
    (InitTimerContext cfg plat m p).2.timer_ctxs_.length = m.timer_ctxs_.length := by
  rcases h : ticks_to_start cfg (plat.curtime_ms % U64_MOD) p with _ | ticks <;>
    simp only [InitTimerContext, h] <;> split_ifs <;> simp [Motor.set_ctx]

theorem InitTimerContext_exit (cfg : Config) (plat : Platform) (m : Motor)
    (p : MotorTimerParam) :
    (InitTimerContext cfg plat m p).1 = Exit.returned ESP_OK ∨
    (InitTimerContext cfg plat m p).1 = Exit.returned ESP_ERR_NO_MEM ∨
    (InitTimerContext cfg plat m p).1 = Exit.aborted := by
  have hs : plat.xTimerStart.exit = Exit.returned ESP_OK ∨
      plat.xTimerStart.exit = Exit.aborted := by
    cases plat.xTimerStart <;> simp [StartCheck.exit]
  rcases h : ticks_to_start cfg (plat.curtime_ms % U64_MOD) p with _ | ticks <;>
    simp only [InitTimerContext, h] <;> split_ifs <;>
    rcases hs with hs | hs <;> simp [hs]

/-- C4. On an initialised engine with a free slot, `CreateTimer` returns
`ESP_ERR_INVALID_ARG` exactly when the schedule is repeating and `duration_ms > period_ms`
(the store reporting its own failures with other codes); in that case the engine state,
store included, and the caller's record are as before the call. -/
theorem CreateTimer_invalid_arg (cfg : Config) (plat : Platform) (m : Motor)
    (p : MotorTimerParam) (hinit : m.is_initiated_ = true)
    (hfree : find_free m.timer_params_ < m.timer_params_.length)
    (h256 : find_free m.timer_params_ < 256)
    (hrc : plat.nvs_set_blob_rc ≠ ESP_ERR_INVALID_ARG) :
    ((CreateTimer cfg plat m p).1 = Exit.returned ESP_ERR_INVALID_ARG ↔
      (repeating cfg p ∧ p.period_ms < p.duration_ms)) ∧
    ((repeating cfg p ∧ p.period_ms < p.duration_ms) →
      CreateTimer cfg plat m p = (Exit.returned ESP_ERR_INVALID_ARG, m, p)) := by
  have hrej : (repeating cfg p ∧ p.period_ms < p.duration_ms) →
      CreateTimer cfg plat m p = (Exit.returned ESP_ERR_INVALID_ARG, m, p) := by
    intro h
    unfold repeating at h
    unfold CreateTimer
    rw [if_neg (by simp [hinit]), if_neg (by omega), if_neg (by omega), if_pos h]
  refine ⟨⟨fun h => ?_, fun h => by rw [hrej h]⟩, hrej⟩
  by_contra hv
  unfold repeating at hv
  by_cases hnvs : plat.nvs_set_blob_rc = ESP_OK
  · rw [CreateTimer_accept cfg plat m p hinit hfree h256 hv hnvs] at h
    rcases InitTimerContext_exit cfg plat
      (m.store_param (sprintf_d (find_free m.timer_params_)) (find_free m.timer_params_)
        { p with timer_no := find_free m.timer_params_ })
      { p with timer_no := find_free m.timer_params_ } with h1 | h1 | h1
    all_goals
      simp only [h1] at h
      revert h
      decide
  · unfold CreateTimer at h
    rw [if_neg (by simp [hinit]), if_neg (by omega), if_neg (by omega), if_neg hv,
      if_pos hnvs] at h
    simp only [Exit.returned.injEq] at h
    exact hrc h

/-- Witness of C4: the sample schedule with `duration_ms` raised above `period_ms`. -/
theorem CreateTimer_invalid_arg_witness :
    ((CreateTimer demo_cfg (demo_platform 5000) demo_motor
        { demo_param with duration_ms := 1001 }).1 = Exit.returned ESP_ERR_INVALID_ARG ↔
      (repeating demo_cfg { demo_param with duration_ms := 1001 } ∧
        ({ demo_param with duration_ms := 1001 } : MotorTimerParam).period_ms
          < ({ demo_param with duration_ms := 1001 } : MotorTimerParam).duration_ms)) ∧
    ((repeating demo_cfg { demo_param with duration_ms := 1001 } ∧
        ({ demo_param with duration_ms := 1001 } : MotorTimerParam).period_ms
          < ({ demo_param with duration_ms := 1001 } : MotorTimerParam).duration_ms) →
      CreateTimer demo_cfg (demo_platform 5000) demo_motor
          { demo_param with duration_ms := 1001 }
        = (Exit.returned ESP_ERR_INVALID_ARG, demo_motor,
            { demo_param with duration_ms := 1001 })) :=
  CreateTimer_invalid_arg demo_cfg (demo_platform 5000) demo_motor
    { demo_param with duration_ms := 1001 } rfl (by decide) (by decide) (by decide)

/-- C6. On an initialised engine whose slots are all occupied (at most 255 of them, the
range of the `uint8_t` counter) `CreateTimer` returns `ESP_ERR_NO_MEM` and the engine
state, store included, and the caller's record are as before the call. -/
theorem CreateTimer_full (cfg : Config) (plat : Platform) (m : Motor) (p : MotorTimerParam)
    (hinit : m.is_initiated_ = true) (hfull : ∀ x ∈ m.timer_params_, x ≠ none)
    (hmax : m.timer_params_.length ≤ 255) :
    CreateTimer cfg plat m p = (Exit.returned ESP_ERR_NO_MEM, m, p) := by
  have hff := find_free_full m.timer_params_ hfull
  unfold CreateTimer
  rw [if_neg (by simp [hinit]), if_neg (by omega), if_pos (by omega)]

/-- An engine with four slots, all of them occupied by the sample schedule. -/
theorem CreateTimer_full_witness :
    CreateTimer demo_cfg (demo_platform 5000)
        { demo_motor with timer_params_ := List.replicate 4 (some demo_param) } demo_oneshot
      = (Exit.returned ESP_ERR_NO_MEM,
          { demo_motor with timer_params_ := List.replicate 4 (some demo_param) },
          demo_oneshot) :=
  CreateTimer_full demo_cfg (demo_platform 5000)
    { demo_motor with timer_params_ := List.replicate 4 (some demo_param) } demo_oneshot
    rfl (by decide) (by decide)

/-- C7. A one-shot schedule with `now ≥ first_start_timestamp + duration_ms`, on an
initialised engine with a free slot and a store that accepts the write: `CreateTimer`
returns `ESP_OK`, the record (with its slot number) is in the store and in its slot of
the parameter table, and the context table is as before the call. -/
theorem CreateTimer_expired_oneshot (cfg : Config) (plat : Platform) (m : Motor)
    (p : MotorTimerParam) (hinit : m.is_initiated_ = true)
    (hfree : find_free m.timer_params_ < m.timer_params_.length)
    (h256 : find_free m.timer_params_ < 256)
    (hone : p.period_ms < cfg.portTICK_PERIOD_MS)
    (hnow : plat.curtime_ms < U64_MOD)
    (hexp : p.first_start_timestamp + p.duration_ms ≤ plat.curtime_ms)
    (hnvs : plat.nvs_set_blob_rc = ESP_OK) :
    (CreateTimer cfg plat m p).1 = Exit.returned ESP_OK ∧
    (CreateTimer cfg plat m p).2.2 = { p with timer_no := find_free m.timer_params_ } ∧
    (sprintf_d (find_free m.timer_params_), { p with timer_no := find_free m.timer_params_ })
      ∈ (CreateTimer cfg plat m p).2.1.nvs ∧
    (CreateTimer cfg plat m p).2.1.timer_params_[find_free m.timer_params_]?
      = some (some { p with timer_no := find_free m.timer_params_ }) ∧
    (CreateTimer cfg plat m p).2.1.timer_ctxs_ = m.timer_ctxs_ := by
  have hacc := CreateTimer_accept cfg plat m p hinit hfree h256 (by omega) hnvs
  have hret : InitTimerContext cfg plat
      (m.store_param (sprintf_d (find_free m.timer_params_)) (find_free m.timer_params_)
        { p with timer_no := find_free m.timer_params_ })
      { p with timer_no := find_free m.timer_params_ }
      = (Exit.returned ESP_OK,
        m.store_param (sprintf_d (find_free m.timer_params_)) (find_free m.timer_params_)
          { p with timer_no := find_free m.timer_params_ }) := by
    unfold InitTimerContext
    rw [if_pos]
    refine ⟨hone, ?_⟩
    show (p.first_start_timestamp + p.duration_ms) % U64_MOD ≤ plat.curtime_ms % U64_MOD
    rw [Nat.mod_eq_of_lt hnow, Nat.mod_eq_of_lt (by omega)]
    exact hexp
  rw [hret] at hacc
  rw [hacc]
  refine ⟨rfl, rfl, ?_, ?_, rfl⟩
  · simp [Motor.store_param]
  · simp only [Motor.store_param]
    exact List.getElem?_set_self hfree

/-- Witness of C7: `period_ms = 0`, `duration_ms = 5000`, first start 10000 ms ago. -/
theorem CreateTimer_expired_oneshot_witness :
    (CreateTimer demo_cfg (demo_platform 30000) demo_motor demo_oneshot).1
      = Exit.returned ESP_OK ∧
    (CreateTimer demo_cfg (demo_platform 30000) demo_motor demo_oneshot).2.2
      = { demo_oneshot with timer_no := find_free demo_motor.timer_params_ } ∧
    (sprintf_d (find_free demo_motor.timer_params_),
        { demo_oneshot with timer_no := find_free demo_motor.timer_params_ })
      ∈ (CreateTimer demo_cfg (demo_platform 30000) demo_motor demo_oneshot).2.1.nvs ∧
    (CreateTimer demo_cfg (demo_platform 30000) demo_motor
        demo_oneshot).2.1.timer_params_[find_free demo_motor.timer_params_]?
      = some (some { demo_oneshot with timer_no := find_free demo_motor.timer_params_ }) ∧
    (CreateTimer demo_cfg (demo_platform 30000) demo_motor demo_oneshot).2.1.timer_ctxs_
      = demo_motor.timer_ctxs_ :=
  CreateTimer_expired_oneshot demo_cfg (demo_platform 30000) demo_motor demo_oneshot
    rfl (by decide) (by decide) (by decide) (by decide) (by decide) rfl

/-- C10. On an initialised engine with a free slot and a record that passes validation,
`CreateTimer` writes into the record the least index whose entry of the parameter table is
empty; every other entry of the table keeps its content, and when the store accepts the
write that entry holds the record. -/
theorem CreateTimer_lowest_free (cfg : Config) (plat : Platform) (m : Motor)
    (p : MotorTimerParam) (hinit : m.is_initiated_ = true)
    (hfree : find_free m.timer_params_ < m.timer_params_.length)
    (h256 : find_free m.timer_params_ < 256)
    (hvalid : ¬(repeating cfg p ∧ p.period_ms < p.duration_ms)) :
    m.timer_params_[(CreateTimer cfg plat m p).2.2.timer_no]? = some none ∧
    (∀ i, i < (CreateTimer cfg plat m p).2.2.timer_no →
      ∃ v, m.timer_params_[i]? = some (some v)) ∧
    (∀ i, i ≠ (CreateTimer cfg plat m p).2.2.timer_no →
      (CreateTimer cfg plat m p).2.1.timer_params_[i]? = m.timer_params_[i]?) ∧
    (plat.nvs_set_blob_rc = ESP_OK →
      (CreateTimer cfg plat m p).2.1.timer_params_[(CreateTimer cfg plat m p).2.2.timer_no]?
        = some (some (CreateTimer cfg plat m p).2.2)) := by
  unfold repeating at hvalid
  have hno : (CreateTimer cfg plat m p).2.2.timer_no = find_free m.timer_params_ := by
    unfold CreateTimer
    rw [if_neg (by simp [hinit]), if_neg (by omega), if_neg (by omega), if_neg hvalid]
    split <;> rfl
  rw [hno]
  refine ⟨find_free_spec _ hfree, fun i hi => find_free_min _ i hi, fun i hi => ?_, fun hnvs => ?_⟩
  · by_cases hnvs : plat.nvs_set_blob_rc = ESP_OK
    · rw [CreateTimer_accept cfg plat m p hinit hfree h256 hvalid hnvs]
      simp only [(InitTimerContext_frame cfg plat _ _).1, Motor.store_param]
      exact List.getElem?_set_ne (Ne.symm hi)
    · unfold CreateTimer
      rw [if_neg (by simp [hinit]), if_neg (by omega), if_neg (by omega), if_neg hvalid,
        if_pos hnvs]
  · rw [CreateTimer_accept cfg plat m p hinit hfree h256 hvalid hnvs]
    simp only [(InitTimerContext_frame cfg plat _ _).1, Motor.store_param]
    exact List.getElem?_set_self hfree

/-- Witness of C10: slots 0 and 1 occupied, slots 2 and 3 free; slot 2 is taken. -/
theorem CreateTimer_lowest_free_witness :
    (CreateTimer demo_cfg (demo_platform 5000)
      { demo_motor with timer_params_ := [some demo_param, some demo_param, none, none] }
      demo_oneshot).2.2.timer_no = 2 ∧
    ∀ i, i ≠ (CreateTimer demo_cfg (demo_platform 5000)
        { demo_motor with timer_params_ := [some demo_param, some demo_param, none, none] }
        demo_oneshot).2.2.timer_no →
      (CreateTimer demo_cfg (demo_platform 5000)
        { demo_motor with timer_params_ := [some demo_param, some demo_param, none, none] }
        demo_oneshot).2.1.timer_params_[i]?
      = ({ demo_motor with timer_params_ := [some demo_param, some demo_param, none, none] }
          : Motor).timer_params_[i]? :=
  ⟨by decide,
    (CreateTimer_lowest_free demo_cfg (demo_platform 5000)
      { demo_motor with timer_params_ := [some demo_param, some demo_param, none, none] }
      demo_oneshot rfl (by decide) (by decide) (by decide)).2.2.1⟩

/-! ## Listing and clearing (C8, C9) -/

/-- C8, what the code does. `ListTimers` returns `ESP_OK` and leaves the output vector as
the caller passed it: with the sample schedule allocated in slot 0 and an empty vector
passed in, the vector is still empty after the call. -/
theorem ListTimers_leaves_output :
    (ListTimers (CreateTimer demo_cfg (demo_platform 5000) demo_motor demo_param).2.1 []).1
      = ESP_OK ∧
    (CreateTimer demo_cfg (demo_platform 5000) demo_motor demo_param).2.1.timer_params_[0]?
      = some (some demo_param) ∧
    (ListTimers (CreateTimer demo_cfg (demo_platform 5000) demo_motor demo_param).2.1 []).2.1
      = [] := by
  decide

/-- C9, what the code does. `ClearTimer` returns `ESP_OK` and leaves the engine state as it
was: with the sample schedule allocated in slot 0, `ClearTimer(0)` leaves the record in
the parameter table, the context in the context table and the entry in the store. -/
theorem ClearTimer_leaves_slot :
    (ClearTimer (CreateTimer demo_cfg (demo_platform 5000) demo_motor demo_param).2.1 0).1
      = ESP_OK ∧
    (ClearTimer (CreateTimer demo_cfg (demo_platform 5000) demo_motor
        demo_param).2.1 0).2.timer_params_[0]? = some (some demo_param) ∧
    (ClearTimer (CreateTimer demo_cfg (demo_platform 5000) demo_motor
        demo_param).2.1 0).2.timer_ctxs_[0]?
      = some (some (new_ctx demo_param (some (Timer.armed 1)))) ∧
    (ClearTimer (CreateTimer demo_cfg (demo_platform 5000) demo_motor demo_param).2.1 0).2.nvs
      = [(sprintf_d 0, demo_param)] := by
  decide

/-! ## Keys of the store -/

theorem digitChar_isDigit : ∀ d, d < 10 → (digitChar d).isDigit = true := by decide

theorem digitChar_toNat : ∀ d, d < 10 → (digitChar d).toNat - 48 = d := by decide

theorem digitChar_plain : ∀ d, d < 10 →
    (digitChar d).isWhitespace = false ∧ digitChar d ≠ '-' ∧ digitChar d ≠ '+' := by decide

theorem atoi_digits_sprintf_d_aux (fuel : Nat) :
    ∀ (n : Nat) (acc : List Char) (a : Nat), n < fuel →
      ∃ k, atoi_digits (sprintf_d_aux fuel n acc) a = atoi_digits acc (a * 10 ^ k + n) := by
  induction fuel with
  | zero => intro n acc a h; omega
  | succ fuel ih =>
    intro n acc a h
    by_cases hn : n < 10
    · refine ⟨1, ?_⟩
      simp only [sprintf_d_aux, if_pos hn, atoi_digits, digitChar_isDigit n hn,
        digitChar_toNat n hn, if_true, pow_one]
    · obtain ⟨k, hk⟩ := ih (n / 10) (digitChar (n % 10) :: acc) a (by omega)
      refine ⟨k + 1, ?_⟩
      have hd : n % 10 < 10 := Nat.mod_lt _ (by omega)
      simp only [sprintf_d_aux, if_neg hn, hk, atoi_digits, digitChar_isDigit _ hd,
        digitChar_toNat _ hd, if_true]
      congr 1
      rw [pow_succ]
      have := Nat.div_add_mod n 10
      nlinarith [this]

theorem sprintf_d_aux_head (fuel : Nat) :
    ∀ (n : Nat) (acc : List Char), n < fuel →
      ∃ d rest, d < 10 ∧ sprintf_d_aux fuel n acc = digitChar d :: rest := by
  induction fuel with
  | zero => intro n acc h; omega
  | succ fuel ih =>
    intro n acc h
    by_cases hn : n < 10
    · exact ⟨n, acc, hn, by simp only [sprintf_d_aux, if_pos hn]⟩
    · obtain ⟨d, rest, hd, hr⟩ := ih (n / 10) (digitChar (n % 10) :: acc) (by omega)
      exact ⟨d, rest, hd, by simp only [sprintf_d_aux, if_neg hn, hr]⟩

theorem atoi_sprintf_d (n : Nat) : atoi (sprintf_d n) = (n : Int) := by
  obtain ⟨d, rest, hd, hr⟩ := sprintf_d_aux_head (n + 1) n [] (by omega)
  obtain ⟨k, hk⟩ := atoi_digits_sprintf_d_aux (n + 1) n [] 0 (by omega)
  obtain ⟨hw, hm, hpl⟩ := digitChar_plain d hd
  have hval : atoi_digits (digitChar d :: rest) 0 = n := by
    rw [← hr, hk]
    simp [atoi_digits]
  unfold atoi sprintf_d
  rw [hr]
  simp only [List.dropWhile_cons, hw, Bool.false_eq_true, if_false]
  rw [if_neg hm, if_neg hpl, hval]

theorem key_slot_sprintf_d (n : Nat) (h : n < 256) : key_slot (sprintf_d n) = n := by
  unfold key_slot
  rw [atoi_sprintf_d]
  omega

/-! ## Start-up -/

theorem Init_load_keep (get_rc : List Char → esp_err_t) (store : Nvs) :
    ∀ (ps : List (Option MotorTimerParam)) (n : Nat),
      (∀ e ∈ store, key_slot e.1 ≠ n) → (Init_load get_rc store ps).2[n]? = ps[n]? := by
  induction store with
  | nil => intro ps n _; rfl
  | cons e rest ih =>
    intro ps n h
    obtain ⟨key, blob⟩ := e
    have hk : key_slot key ≠ n := h (key, blob) (by simp)
    simp only [Init_load]
    split_ifs with hrc hlt
    · rfl
    · rw [ih _ n (fun e he => h e (by simp [he]))]
      exact List.getElem?_set_ne hk
    · rfl

theorem Init_load_ok (get_rc : List Char → esp_err_t) (hget : ∀ key, get_rc key = ESP_OK)
    (store : Nvs) :
    ∀ (ps : List (Option MotorTimerParam)),
      (∀ e ∈ store, key_slot e.1 < ps.length) → (Init_load get_rc store ps).1 = true := by
  induction store with
  | nil => intro ps _; rfl
  | cons e rest ih =>
    intro ps h
    obtain ⟨key, blob⟩ := e
    have hk : key_slot key < ps.length := h (key, blob) (by simp)
    simp only [Init_load, if_pos hk, if_neg (not_not.mpr (hget key))]
    exact ih _ (fun e he => by simpa using h e (by simp [he]))

theorem Init_load_hit (get_rc : List Char → esp_err_t) (hget : ∀ key, get_rc key = ESP_OK)
    (store : Nvs) :
    ∀ (ps : List (Option MotorTimerParam)) (n : Nat) (key : List Char) (b : MotorTimerParam),
      (∀ e ∈ store, key_slot e.1 < ps.length) → (key, b) ∈ store → key_slot key = n →
      (∀ e ∈ store, key_slot e.1 = n → e.2 = b) →
      (Init_load get_rc store ps).2[n]? = some (some b) := by
  induction store with
  | nil => intro ps n key b _ hmem; simp at hmem
  | cons e rest ih =>
    intro ps n key b hrange hmem hkey hall
    obtain ⟨key1, blob1⟩ := e
    have hk : key_slot key1 < ps.length := hrange (key1, blob1) (by simp)
    have hrange1 : ∀ e ∈ rest, key_slot e.1 < (ps.set (key_slot key1) (some blob1)).length :=
      fun e he => by simpa using hrange e (by simp [he])
    simp only [Init_load, if_pos hk, if_neg (not_not.mpr (hget key1))]
    by_cases hex : ∃ e ∈ rest, key_slot e.1 = n
    · obtain ⟨e, he, hen⟩ := hex
      have hb : e.2 = b := hall e (by simp [he]) hen
      have hmem1 : (e.1, b) ∈ rest := by rw [← hb]; exact he
      exact ih _ n e.1 b hrange1 hmem1 hen (fun e1 he1 => hall e1 (by simp [he1]))
    · have hno : ∀ e ∈ rest, key_slot e.1 ≠ n := fun e he hen => hex ⟨e, he, hen⟩
      have hhead : (key, b) = (key1, blob1) := by
        rcases List.mem_cons.mp hmem with h | h
        · exact h
        · exact absurd hkey (hno _ h)
      obtain ⟨h1, h2⟩ := Prod.mk.inj hhead
      subst h1 h2
      rw [Init_load_keep get_rc rest _ n hno, ← hkey]
      exact List.getElem?_set_self hk

theorem Init_arm_frame (cfg : Config) (plat : Nat → Platform)
    (ps : List (Option MotorTimerParam)) :
    ∀ (i : Nat) (m : Motor), (Init_arm cfg plat ps i m).2.timer_params_ = m.timer_params_ := by
  induction ps with
  | nil => intro i m; rfl
  | cons x rest ih =>
    intro i m
    cases x with
    | none => simpa [Init_arm] using ih (i + 1) m
    | some param =>
      simp only [Init_arm]
      split_ifs
      · rw [ih, (InitTimerContext_frame cfg (plat i) m param).1]
      · exact (InitTimerContext_frame cfg (plat i) m param).1

theorem Init_timer_params (cfg : Config) (plat : InitPlatform) (m : Motor)
    (hopen : plat.nvs_open_rc = ESP_OK)
    (h : (Init_load plat.nvs_get_blob_rc m.nvs m.timer_params_).1 = true) :
    (Init cfg plat m).2.timer_params_
      = (Init_load plat.nvs_get_blob_rc m.nvs m.timer_params_).2 := by
  unfold Init
  simp only [hopen, ne_eq, not_true_eq_false, if_false, h, Bool.true_eq_false]
  split_ifs
  · exact Init_arm_frame cfg plat.slot _ 0 _
  · exact Init_arm_frame cfg plat.slot _ 0 _

theorem CreateTimer_success_inv (cfg : Config) (plat : Platform) (m : Motor)
    (p : MotorTimerParam) (hsucc : (CreateTimer cfg plat m p).1 = Exit.returned ESP_OK) :
    m.is_initiated_ = true ∧ find_free m.timer_params_ < 256 ∧
    find_free m.timer_params_ < m.timer_params_.length ∧
    ¬(cfg.portTICK_PERIOD_MS ≤ p.period_ms ∧ p.period_ms < p.duration_ms) ∧
    plat.nvs_set_blob_rc = ESP_OK := by
  by_cases h1 : m.is_initiated_ = false
  · unfold CreateTimer at hsucc
    rw [if_pos h1] at hsucc
    simp [ESP_ERR_INVALID_STATE, ESP_OK] at hsucc
  by_cases h2 : 256 ≤ find_free m.timer_params_
  · unfold CreateTimer at hsucc
    rw [if_neg h1, if_pos h2] at hsucc
    simp at hsucc
  by_cases h3 : m.timer_params_.length ≤ find_free m.timer_params_
  · unfold CreateTimer at hsucc
    rw [if_neg h1, if_neg h2, if_pos h3] at hsucc
    simp [ESP_ERR_NO_MEM, ESP_OK] at hsucc
  by_cases h4 : cfg.portTICK_PERIOD_MS ≤ p.period_ms ∧ p.period_ms < p.duration_ms
  · unfold CreateTimer at hsucc
    rw [if_neg h1, if_neg h2, if_neg h3, if_pos h4] at hsucc
    simp [ESP_ERR_INVALID_ARG, ESP_OK] at hsucc
  by_cases h5 : plat.nvs_set_blob_rc ≠ ESP_OK
  · unfold CreateTimer at hsucc
    rw [if_neg h1, if_neg h2, if_neg h3, if_neg h4, if_pos h5] at hsucc
    simp only [Exit.returned.injEq] at hsucc
    exact absurd hsucc h5
  exact ⟨by simpa using h1, by omega, by omega, h4, by simpa using h5⟩

/-- C5. Round trip through the store. When `CreateTimer` returns `ESP_OK` for the record
`p` on an engine whose store holds keys as `CreateTimer` writes them, the record it
persisted equals `p` except for `timer_no`, which is the allocated slot `n`; the key
written for slot `n` is parsed back to `n`; and `Init` on a freshly constructed engine
over the resulting store, its entries iterated in any order and read without error,
leaves that record in `timer_params_[n]`, whatever the arming of the timers then does. -/
theorem CreateTimer_Init_roundtrip (cfg : Config) (plat : Platform) (m : Motor)
    (p : MotorTimerParam) (hsize : m.timer_params_.length = cfg.kMaxNumTimers)
    (hcanon : Nvs.canonical m.nvs cfg.kMaxNumTimers)
    (hsucc : (CreateTimer cfg plat m p).1 = Exit.returned ESP_OK) :
    (CreateTimer cfg plat m p).2.2 =
      { p with timer_no := (CreateTimer cfg plat m p).2.2.timer_no } ∧
    atoi (sprintf_d (CreateTimer cfg plat m p).2.2.timer_no)
      = ((CreateTimer cfg plat m p).2.2.timer_no : Int) ∧
    (sprintf_d (CreateTimer cfg plat m p).2.2.timer_no, (CreateTimer cfg plat m p).2.2)
      ∈ (CreateTimer cfg plat m p).2.1.nvs ∧
    ∀ (store : Nvs) (plat1 : InitPlatform), store.Perm (CreateTimer cfg plat m p).2.1.nvs →
      plat1.nvs_open_rc = ESP_OK → (∀ key, plat1.nvs_get_blob_rc key = ESP_OK) →
      (Init cfg plat1 (Motor.new cfg store)).2.timer_params_[
          (CreateTimer cfg plat m p).2.2.timer_no]?
        = some (some (CreateTimer cfg plat m p).2.2) := by
  obtain ⟨hinit, h256, hfree, hvalid, hnvs⟩ := CreateTimer_success_inv cfg plat m p hsucc
  have hacc := CreateTimer_accept cfg plat m p hinit hfree h256 hvalid hnvs
  have hstore : (CreateTimer cfg plat m p).2.1.nvs =
      m.nvs.filter (fun e => decide (e.1 ≠ sprintf_d (find_free m.timer_params_)))
        ++ [(sprintf_d (find_free m.timer_params_),
            { p with timer_no := find_free m.timer_params_ })] := by
    rw [hacc]
    simp only [(InitTimerContext_frame cfg plat _ _).2.1, Motor.store_param]
  have hrec : (CreateTimer cfg plat m p).2.2 = { p with timer_no := find_free m.timer_params_ } := by
    rw [hacc]
  rw [hstore, hrec]
  refine ⟨rfl, atoi_sprintf_d _, by simp, fun store plat1 hperm hopen hget => ?_⟩
  have hmem : ∀ e, e ∈ store ↔
      e ∈ m.nvs.filter (fun e => decide (e.1 ≠ sprintf_d (find_free m.timer_params_)))
        ++ [(sprintf_d (find_free m.timer_params_),
            { p with timer_no := find_free m.timer_params_ })] :=
    fun e => hperm.mem_iff
  have hslot := key_slot_sprintf_d (find_free m.timer_params_) h256
  have hold : ∀ e ∈ store,
      e = (sprintf_d (find_free m.timer_params_),
          ({ p with timer_no := find_free m.timer_params_ } : MotorTimerParam)) ∨
      (∃ i, i < cfg.kMaxNumTimers ∧ i < 256 ∧ e.1 = sprintf_d i ∧
        i ≠ find_free m.timer_params_) := by
    intro e he
    rcases List.mem_append.mp ((hmem e).mp he) with h | h
    · right
      obtain ⟨hin, hne⟩ := List.mem_filter.mp h
      obtain ⟨i, hi, hi256, hkey⟩ := hcanon e hin
      refine ⟨i, hi, hi256, hkey, fun heq => ?_⟩
      rw [hkey, heq] at hne
      simp at hne
    · left
      simpa using h
  have hrange : ∀ e ∈ (Motor.new cfg store).nvs,
      key_slot e.1 < (Motor.new cfg store).timer_params_.length := by
    intro e he
    simp only [Motor.new, List.length_replicate]
    rcases hold e he with h | ⟨i, hi, hi256, hkey, -⟩
    · rw [h, hslot]; omega
    · rw [hkey, key_slot_sprintf_d i hi256]; exact hi
  have huniq : ∀ e ∈ (Motor.new cfg store).nvs, key_slot e.1 = find_free m.timer_params_ →
      e.2 = ({ p with timer_no := find_free m.timer_params_ } : MotorTimerParam) := by
    intro e he hk
    rcases hold e he with h | ⟨i, -, hi256, hkey, hne⟩
    · rw [h]
    · rw [hkey, key_slot_sprintf_d i hi256] at hk
      exact absurd hk hne
  have hin : (sprintf_d (find_free m.timer_params_),
      ({ p with timer_no := find_free m.timer_params_ } : MotorTimerParam))
      ∈ (Motor.new cfg store).nvs := (hmem _).mpr (by simp)
  rw [Init_timer_params cfg plat1 _ hopen (Init_load_ok _ hget _ _ hrange)]
  exact Init_load_hit _ hget _ _ _ _ _ hrange hin hslot huniq

/-- Witness of C5: the sample schedule created on an engine with an empty store. -/
theorem CreateTimer_Init_roundtrip_witness :
    (CreateTimer demo_cfg (demo_platform 5000) demo_motor demo_param).2.2 = demo_param ∧
    (Init demo_cfg (demo_init_platform 9000) (Motor.new demo_cfg
      (CreateTimer demo_cfg (demo_platform 5000) demo_motor demo_param).2.1.nvs)).1
      = Exit.returned ESP_OK ∧
    ∀ (store : Nvs) (plat1 : InitPlatform),
      store.Perm (CreateTimer demo_cfg (demo_platform 5000) demo_motor demo_param).2.1.nvs →
      plat1.nvs_open_rc = ESP_OK → (∀ key, plat1.nvs_get_blob_rc key = ESP_OK) →
      (Init demo_cfg plat1 (Motor.new demo_cfg store)).2.timer_params_[
          (CreateTimer demo_cfg (demo_platform 5000) demo_motor demo_param).2.2.timer_no]?
        = some (some (CreateTimer demo_cfg (demo_platform 5000) demo_motor demo_param).2.2) :=
  ⟨by decide, by decide,
    (CreateTimer_Init_roundtrip demo_cfg (demo_platform 5000) demo_motor demo_param
      (by decide) (by intro e he; simp [demo_motor, Motor.new] at he) (by decide)).2.2.2⟩

theorem CreateTimer_nvs (cfg : Config) (plat : Platform) (m : Motor) (p : MotorTimerParam) :
    (CreateTimer cfg plat m p).2.1.nvs = m.nvs ∨
    (find_free m.timer_params_ < 256 ∧ find_free m.timer_params_ < m.timer_params_.length ∧
      (CreateTimer cfg plat m p).2.1.nvs =
        m.nvs.filter (fun e => decide (e.1 ≠ sprintf_d (find_free m.timer_params_)))
          ++ [(sprintf_d (find_free m.timer_params_),
              { p with timer_no := find_free m.timer_params_ })]) := by
  by_cases h1 : m.is_initiated_ = false
  · left; unfold CreateTimer; rw [if_pos h1]
  by_cases h2 : 256 ≤ find_free m.timer_params_
  · left; unfold CreateTimer; rw [if_neg h1, if_pos h2]
  by_cases h3 : m.timer_params_.length ≤ find_free m.timer_params_
  · left; unfold CreateTimer; rw [if_neg h1, if_neg h2, if_pos h3]
  by_cases h4 : cfg.portTICK_PERIOD_MS ≤ p.period_ms ∧ p.period_ms < p.duration_ms
  · left; unfold CreateTimer; rw [if_neg h1, if_neg h2, if_neg h3, if_pos h4]
  by_cases h5 : plat.nvs_set_blob_rc ≠ ESP_OK
  · left; unfold CreateTimer; rw [if_neg h1, if_neg h2, if_neg h3, if_neg h4, if_pos h5]
  · right
    refine ⟨by omega, by omega, ?_⟩
    rw [CreateTimer_accept cfg plat m p (by simpa using h1) (by omega) (by omega) h4
      (by simpa using h5)]
    simp only [(InitTimerContext_frame cfg plat _ _).2.1, Motor.store_param]

theorem CreateTimer_canonical (cfg : Config) (plat : Platform) (m : Motor)
    (p : MotorTimerParam) (size : Nat) (hsize : m.timer_params_.length = size)
    (hcanon : Nvs.canonical m.nvs size) :
    Nvs.canonical (CreateTimer cfg plat m p).2.1.nvs size := by
  rcases CreateTimer_nvs cfg plat m p with h | ⟨h256, hfree, h⟩
  · rw [h]; exact hcanon
  · rw [h]
    intro e he
    rcases List.mem_append.mp he with h1 | h1
    · exact hcanon e (List.mem_filter.mp h1).1
    · refine ⟨find_free m.timer_params_, by omega, h256, ?_⟩
      have : e = (sprintf_d (find_free m.timer_params_),
          ({ p with timer_no := find_free m.timer_params_ } : MotorTimerParam)) := by
        simpa using h1
      rw [this]

/-! ## Calls before `Init` has completed (C11) -/

theorem Init_arm_initiated (cfg : Config) (plat : Nat → Platform)
    (ps : List (Option MotorTimerParam)) :
    ∀ (i : Nat) (m : Motor),
      (Init_arm cfg plat ps i m).2.is_initiated_ = m.is_initiated_ := by
  induction ps with
  | nil => intro i m; rfl
  | cons x rest ih =>
    intro i m
    cases x with
    | none => simpa [Init_arm] using ih (i + 1) m
    | some param =>
      simp only [Init_arm]
      split_ifs
      · rw [ih, (InitTimerContext_frame cfg (plat i) m param).2.2.1]
      · exact (InitTimerContext_frame cfg (plat i) m param).2.2.1

theorem Init_not_completed (cfg : Config) (plat : InitPlatform) (m : Motor)
    (h : m.is_initiated_ = false) (hexit : (Init cfg plat m).1 ≠ Exit.returned ESP_OK) :
    (Init cfg plat m).2.is_initiated_ = false := by
  by_cases h1 : plat.nvs_open_rc ≠ ESP_OK
  · unfold Init; rw [if_pos h1]; exact h
  by_cases h2 : (Init_load plat.nvs_get_blob_rc m.nvs m.timer_params_).1 = false
  · unfold Init; rw [if_neg h1]; simp only [h2, if_true]; exact h
  by_cases h3 : (Init_arm cfg plat.slot (Init_load plat.nvs_get_blob_rc m.nvs m.timer_params_).2 0
      { m with timer_params_ := (Init_load plat.nvs_get_blob_rc m.nvs m.timer_params_).2 }).1
      = Exit.returned ESP_OK
  · exfalso
    apply hexit
    unfold Init
    rw [if_neg h1]
    simp only [h2, h3, if_true]
    simp
  · unfold Init
    rw [if_neg h1]
    simp only [h2, h3, if_false]
    rw [if_neg (by simp), Init_arm_initiated]
    exact h

/-- C11. On an engine whose flag `is_initiated_` is still false (a fresh engine, or one
whose `Init` did not return `ESP_OK`), `CreateTimer`, `ListTimers`, `ClearTimer` and
`ClearAllTimers` return `ESP_ERR_INVALID_STATE` and leave the engine state, both tables and
the store included, as it was; the caller's record and output vector are untouched too. -/
theorem not_initiated_invalid_state (cfg : Config) (plat : Platform) (m : Motor)
    (p : MotorTimerParam) (times : List MotorTimerParam) (time_no : Nat)
    (h : m.is_initiated_ = false) :
    CreateTimer cfg plat m p = (Exit.returned ESP_ERR_INVALID_STATE, m, p) ∧
    ListTimers m times = (ESP_ERR_INVALID_STATE, times, m) ∧
    ClearTimer m time_no = (ESP_ERR_INVALID_STATE, m) ∧
    ClearAllTimers m = (ESP_ERR_INVALID_STATE, m) := by
  refine ⟨?_, ?_, ?_, ?_⟩
  · unfold CreateTimer; rw [if_pos h]
  · unfold ListTimers; rw [if_pos h]
  · unfold ClearTimer; rw [if_pos h]
  · unfold ClearAllTimers; rw [if_pos h]

/-- Witness of C11: a freshly constructed engine over a store with one schedule. -/
theorem not_initiated_invalid_state_witness :
    CreateTimer demo_cfg (demo_platform 5000) (Motor.new demo_cfg [(sprintf_d 0, demo_param)])
        demo_oneshot
      = (Exit.returned ESP_ERR_INVALID_STATE, Motor.new demo_cfg [(sprintf_d 0, demo_param)],
          demo_oneshot) ∧
    ListTimers (Motor.new demo_cfg [(sprintf_d 0, demo_param)]) []
      = (ESP_ERR_INVALID_STATE, [], Motor.new demo_cfg [(sprintf_d 0, demo_param)]) ∧
    ClearTimer (Motor.new demo_cfg [(sprintf_d 0, demo_param)]) 0
      = (ESP_ERR_INVALID_STATE, Motor.new demo_cfg [(sprintf_d 0, demo_param)]) ∧
    ClearAllTimers (Motor.new demo_cfg [(sprintf_d 0, demo_param)])
      = (ESP_ERR_INVALID_STATE, Motor.new demo_cfg [(sprintf_d 0, demo_param)]) :=
  not_initiated_invalid_state demo_cfg (demo_platform 5000)
    (Motor.new demo_cfg [(sprintf_d 0, demo_param)]) demo_oneshot [] 0 rfl

/-! ## Actuation results (C16) -/

/-- C16. The transition handler does not depend on what the actuation returns: for every
state and slot, `TimerTask`, the fire callback and every run of fires give the same result
(next command, next delay, re-armed or not, and everything else in the state) for any two
codes returned by `Start` or `Stop`. -/
theorem TimerTask_actuation_independent (cfg : Config) (rc1 rc2 : esp_err_t) (m : Motor)
    (slot : Nat) :
    TimerTask cfg rc1 m slot = TimerTask cfg rc2 m slot ∧
    TimerTaskEntry cfg rc1 m slot = TimerTaskEntry cfg rc2 m slot ∧
    ∀ n, fires cfg rc1 slot n m = fires cfg rc2 slot n m := by
  have h1 : ∀ m : Motor, TimerTask cfg rc1 m slot = TimerTask cfg rc2 m slot := by
    intro m
    unfold TimerTask actuate
    rfl
  have h2 : ∀ m : Motor, TimerTaskEntry cfg rc1 m slot = TimerTaskEntry cfg rc2 m slot := by
    intro m
    unfold TimerTaskEntry
    simp only [h1]
  refine ⟨h1 m, h2 m, fun n => ?_⟩
  induction n generalizing m with
  | zero => rfl
  | succ n ih =>
    rw [fires_succ, fires_succ, h2 m]
    cases TimerTaskEntry cfg rc2 m slot with
    | none => rfl
    | some m1 => exact ih m1

/-! ## Failure of the store write (C17) -/

/-- C17. When `nvs_set_blob` fails in `CreateTimer` (initialised engine, free slot, valid
record), `CreateTimer` returns the code of `nvs_set_blob` and the engine state is as before
the call: the slot is still empty and no context is stored. Only the caller's record has
received the slot number. -/
theorem CreateTimer_store_failure (cfg : Config) (plat : Platform) (m : Motor)
    (p : MotorTimerParam) (hinit : m.is_initiated_ = true)
    (hfree : find_free m.timer_params_ < m.timer_params_.length)
    (h256 : find_free m.timer_params_ < 256)
    (hvalid : ¬(repeating cfg p ∧ p.period_ms < p.duration_ms))
    (hfail : plat.nvs_set_blob_rc ≠ ESP_OK) :
    CreateTimer cfg plat m p =
      (Exit.returned plat.nvs_set_blob_rc, m, { p with timer_no := find_free m.timer_params_ }) ∧
    (CreateTimer cfg plat m p).2.1.timer_params_ = m.timer_params_ ∧
    (CreateTimer cfg plat m p).2.1.timer_ctxs_ = m.timer_ctxs_ ∧
    (CreateTimer cfg plat m p).2.1.timer_params_[find_free m.timer_params_]? = some none := by
  unfold repeating at hvalid
  have h : CreateTimer cfg plat m p =
      (Exit.returned plat.nvs_set_blob_rc, m,
        { p with timer_no := find_free m.timer_params_ }) := by
    unfold CreateTimer
    rw [if_neg (by simp [hinit]), if_neg (by omega), if_neg (by omega), if_neg hvalid,
      if_pos hfail]
  rw [h]
  exact ⟨rfl, rfl, rfl, find_free_spec _ hfree⟩

/-- Witness of C17: the store answers with the code `0x1105`. -/
theorem CreateTimer_store_failure_witness :
    CreateTimer demo_cfg { demo_platform 5000 with nvs_set_blob_rc := 0x1105 } demo_motor
        demo_param
      = (Exit.returned 0x1105, demo_motor, demo_param) :=
  (CreateTimer_store_failure demo_cfg { demo_platform 5000 with nvs_set_blob_rc := 0x1105 }
    demo_motor demo_param rfl (by decide) (by decide) (by decide) (by decide)).1

/-! ## Single transitions (C12, C13) -/

theorem ms_sub_wrap (cfg : Config) (a b : Nat) (hb : b < 2 ^ cfg.ms_bits) (hab : a < b) :
    ms_sub cfg a b = 2 ^ cfg.ms_bits - (b - a) := by
  unfold ms_sub
  rw [Nat.mod_eq_of_lt (by omega : a < 2 ^ cfg.ms_bits), Nat.mod_eq_of_lt hb,
    Nat.mod_eq_of_lt (by omega)]
  omega

/-- C12 (as amended). A fire in the `START_MOTOR` phase calls `Start(speed)`. With `g` the
difference `period_ms - duration_ms` in the unsigned type of the fields (`period_ms -
duration_ms` when `duration_ms ≤ period_ms`, and `2^ms_bits - (duration_ms - period_ms)`
otherwise, as for a one-shot schedule of at least one tick): when `g` and `duration_ms`
are at least one tick the next command is `STOP_MOTOR` with the delay `duration_ms` in
ticks; when `g` is below one tick and `period_ms` at least one tick the next command is
`START_MOTOR` with the delay `period_ms` in ticks. Delays are taken to fit `TickType_t`. -/
theorem TimerTaskEntry_start (cfg : Config) (act_rc : esp_err_t) (m : Motor) (slot : Nat)
    (ctx : MotorTimerCtx) (t : Timer) (tp : MotorTimerParam)
    (hcfg : cfg.WF) (htp : tp.WF cfg)
    (hctx : m.timer_ctxs_[slot]? = some (some ctx))
    (hcmd : ctx.motor_cmd = MotorTimerCMD.START_MOTOR)
    (hh : ctx.timer_handle = some t) (hact : t.active = true)
    (hp : m.timer_params_[ctx.timer_no]? = some (some tp))
    (hfitP : tp.period_ms / cfg.portTICK_PERIOD_MS < TICK_MOD)
    (hfitD : tp.duration_ms / cfg.portTICK_PERIOD_MS < TICK_MOD) :
    (tp.duration_ms ≤ tp.period_ms →
      ms_sub cfg tp.period_ms tp.duration_ms = tp.period_ms - tp.duration_ms) ∧
    (tp.period_ms < tp.duration_ms →
      ms_sub cfg tp.period_ms tp.duration_ms
        = 2 ^ cfg.ms_bits - (tp.duration_ms - tp.period_ms)) ∧
    ∃ m1, TimerTaskEntry cfg act_rc m slot = some m1 ∧
      m1.actuations = m.actuations ++ [Actuation.Start tp.speed] ∧
      m1.timer_params_ = m.timer_params_ ∧
      (cfg.portTICK_PERIOD_MS ≤ ms_sub cfg tp.period_ms tp.duration_ms →
        cfg.portTICK_PERIOD_MS ≤ tp.duration_ms →
        m1.timer_ctxs_[slot]? = some (some ⟨ctx.timer_no, MotorTimerCMD.STOP_MOTOR,
          some (Timer.armed (tp.duration_ms / cfg.portTICK_PERIOD_MS)), ctx.stopped⟩)) ∧
      (ms_sub cfg tp.period_ms tp.duration_ms < cfg.portTICK_PERIOD_MS →
        cfg.portTICK_PERIOD_MS ≤ tp.period_ms →
        m1.timer_ctxs_[slot]? = some (some ⟨ctx.timer_no, MotorTimerCMD.START_MOTOR,
          some (Timer.armed (tp.period_ms / cfg.portTICK_PERIOD_MS)), ctx.stopped⟩)) := by
  obtain ⟨hT, -, -, -⟩ := hcfg
  have hn : slot < m.timer_ctxs_.length := by
    rcases List.getElem?_eq_some.mp hctx with ⟨h, -⟩
    exact h
  refine ⟨fun h => ms_sub_eq cfg _ _ htp.1 h, fun h => ms_sub_wrap cfg _ _ htp.2.1 h, ?_⟩
  obtain ⟨m1, h1, -, h3, -, h5, h6⟩ := TimerTaskEntry_eq cfg act_rc m slot ctx t tp hctx hh hact hp
  rw [hcmd] at h5 h6
  refine ⟨m1, h1, ?_, h3, fun hg hd => ?_, fun hg hper => ?_⟩
  · rw [h5]
    unfold TimerTask_switch
    split_ifs <;> rfl
  · have hq : ms_sub cfg tp.period_ms tp.duration_ms / cfg.portTICK_PERIOD_MS ≠ 0 := by
      have := Nat.div_pos hg hT
      omega
    have hd1 : tp.duration_ms / cfg.portTICK_PERIOD_MS ≠ 0 := by
      have := Nat.div_pos hd hT
      omega
    rw [h6, List.getElem?_set_self hn]
    simp only [TimerTask_switch, if_neg hq, Nat.mod_eq_of_lt hfitD]
    rw [if_pos hd1]
  · have hq : ms_sub cfg tp.period_ms tp.duration_ms / cfg.portTICK_PERIOD_MS = 0 :=
      Nat.div_eq_of_lt hg
    have hd1 : tp.period_ms / cfg.portTICK_PERIOD_MS ≠ 0 := by
      have := Nat.div_pos hper hT
      omega
    rw [h6, List.getElem?_set_self hn]
    simp only [TimerTask_switch, if_pos hq, Nat.mod_eq_of_lt hfitP]
    rw [if_pos hd1]

/-- Witness of C12: the first fire of the sample repeating schedule. -/
theorem TimerTaskEntry_start_witness :
    ms_sub demo_cfg demo_param.period_ms demo_param.duration_ms = 700 ∧
    ∃ m1, TimerTaskEntry demo_cfg 0 demo_armed 0 = some m1 ∧
      m1.actuations = [Actuation.Start 7] ∧
      m1.timer_ctxs_[0]? = some (some ⟨0, MotorTimerCMD.STOP_MOTOR,
        some (Timer.armed 30), false⟩) := by
  obtain ⟨h1, -, m1, e, ha, -, hs, -⟩ := TimerTaskEntry_start demo_cfg 0 demo_armed 0
    (new_ctx demo_param (some (Timer.armed 1))) (Timer.armed 1) demo_param
    (by decide) (by decide) (by decide) rfl rfl rfl (by decide) (by decide) (by decide)
  exact ⟨h1 (by decide), m1, e, ha, hs (by decide) (by decide)⟩

/-- C12 as stated fails. The first fire of the sample one-shot schedule (`period_ms = 0`,
`duration_ms = 5000`) leaves the `STOP_MOTOR` phase with 500 ticks, not the `START_MOTOR`
phase; the first fire of a repeating schedule with `period_ms = 1000` and `duration_ms =
995` leaves the `START_MOTOR` phase with 100 ticks, not the `STOP_MOTOR` phase. -/
theorem TimerTaskEntry_start_counterexample :
    ¬ repeating demo_cfg demo_oneshot ∧
    (TimerTaskEntry demo_cfg 0 demo_oneshot_armed 0).map (fun m1 => m1.timer_ctxs_[0]?)
      = some (some (some ⟨0, MotorTimerCMD.STOP_MOTOR, some (Timer.armed 500), false⟩)) ∧
    repeating demo_cfg demo_long ∧ demo_long.duration_ms < demo_long.period_ms ∧
    (TimerTaskEntry demo_cfg 0
        (CreateTimer demo_cfg (demo_platform 5000) demo_motor demo_long).2.1 0).map
        (fun m1 => m1.timer_ctxs_[0]?)
      = some (some (some ⟨0, MotorTimerCMD.START_MOTOR, some (Timer.armed 100), false⟩)) := by
  decide

/-- C13 (as amended). A fire in the `STOP_MOTOR` phase of a schedule with `period_ms`
below one tick calls `Stop()` and does not re-arm the timer; the context stays in its
slot of the context table, with its command unchanged and its timer dormant, so that
nothing fires for that slot afterwards. -/
theorem TimerTaskEntry_stop_oneshot (cfg : Config) (act_rc : esp_err_t) (m : Motor)
    (slot : Nat) (ctx : MotorTimerCtx) (t : Timer) (tp : MotorTimerParam)
    (hctx : m.timer_ctxs_[slot]? = some (some ctx))
    (hcmd : ctx.motor_cmd = MotorTimerCMD.STOP_MOTOR)
    (hh : ctx.timer_handle = some t) (hact : t.active = true)
    (hp : m.timer_params_[ctx.timer_no]? = some (some tp))
    (hone : tp.period_ms < cfg.portTICK_PERIOD_MS) :
    ∃ m1, TimerTaskEntry cfg act_rc m slot = some m1 ∧
      m1.actuations = m.actuations ++ [Actuation.Stop] ∧
      m1.timer_params_ = m.timer_params_ ∧
      m1.timer_ctxs_ = m.timer_ctxs_.set slot (some ⟨ctx.timer_no,
        MotorTimerCMD.STOP_MOTOR, some ⟨t.period_ticks, false⟩, ctx.stopped⟩) ∧
      TimerTaskEntry cfg act_rc m1 slot = none := by
  have hn : slot < m.timer_ctxs_.length := by
    rcases List.getElem?_eq_some.mp hctx with ⟨h, -⟩
    exact h
  obtain ⟨m1, h1, -, h3, -, h5, h6⟩ := TimerTaskEntry_eq cfg act_rc m slot ctx t tp hctx hh hact hp
  rw [hcmd] at h5 h6
  have hq : tp.period_ms / cfg.portTICK_PERIOD_MS = 0 := Nat.div_eq_of_lt hone
  have hsw : TimerTask_switch cfg MotorTimerCMD.STOP_MOTOR tp
      = (Actuation.Stop, MotorTimerCMD.STOP_MOTOR, 0) := by
    simp only [TimerTask_switch, if_pos hq]
  rw [hsw] at h5 h6
  simp only [ne_eq, not_true_eq_false, if_false] at h6
  refine ⟨m1, h1, h5, h3, h6, ?_⟩
  unfold TimerTaskEntry
  rw [h6, List.getElem?_set_self hn]
  simp

/-- Witness of C13: the second fire of the sample one-shot schedule. -/
theorem TimerTaskEntry_stop_oneshot_witness :
    ∃ m0, TimerTaskEntry demo_cfg 0 demo_oneshot_armed 0 = some m0 ∧
      ∃ m1, TimerTaskEntry demo_cfg 0 m0 0 = some m1 ∧
        m1.actuations = m0.actuations ++ [Actuation.Stop] ∧
        TimerTaskEntry demo_cfg 0 m1 0 = none := by
  refine ⟨_, rfl, ?_⟩
  obtain ⟨m1, e, ha, -, -, hn⟩ := TimerTaskEntry_stop_oneshot demo_cfg 0
    ((TimerTaskEntry demo_cfg 0 demo_oneshot_armed 0).get (by decide)) 0
    ⟨0, MotorTimerCMD.STOP_MOTOR, some (Timer.armed 500), false⟩ (Timer.armed 500) demo_oneshot
    (by decide) rfl rfl rfl (by decide) (by decide)
  exact ⟨m1, e, ha, hn⟩

/-- C13 as stated fails. After the two fires of the sample one-shot schedule the context
table still holds the context of slot 0, in the `STOP_MOTOR` phase with a dormant timer;
the entry is not empty. -/
theorem TimerTaskEntry_stop_oneshot_counterexample :
    ¬ repeating demo_cfg demo_oneshot ∧
    (fires demo_cfg 0 0 2 demo_oneshot_armed).map (fun m1 => m1.timer_ctxs_[0]?)
      = some (some (some ⟨0, MotorTimerCMD.STOP_MOTOR, some ⟨500, false⟩, false⟩)) ∧
    (fires demo_cfg 0 0 2 demo_oneshot_armed).map (fun m1 => m1.timer_ctxs_[0]?)
      ≠ some (some none) := by
  decide

/-! ## A computed delay of 0 ticks (C14, C15) -/

/-- C14, what the code does. A one-shot schedule with `duration_ms = 5` below the tick of
10 ms, armed in the `START_MOTOR` phase: the first fire calls `Start(speed)`, computes a
delay of 0 ticks and leaves the timer dormant in the `START_MOTOR` phase; no second fire
happens and `Stop()` is never called. -/
theorem oneshot_short_never_stops :
    ¬ repeating demo_cfg demo_short_oneshot ∧
    (CreateTimer demo_cfg (demo_platform 10000) demo_motor demo_short_oneshot).1
      = Exit.returned ESP_OK ∧
    (CreateTimer demo_cfg (demo_platform 10000) demo_motor
        demo_short_oneshot).2.1.timer_ctxs_[0]?
      = some (some ⟨0, MotorTimerCMD.START_MOTOR, some (Timer.armed 1000), false⟩) ∧
    (TimerTask_switch demo_cfg MotorTimerCMD.START_MOTOR demo_short_oneshot).2.2 = 0 ∧
    (fires demo_cfg 0 0 1
        (CreateTimer demo_cfg (demo_platform 10000) demo_motor demo_short_oneshot).2.1).map
        (fun m1 => (m1.actuations, m1.timer_ctxs_[0]?))
      = some ([Actuation.Start 3],
          some (some ⟨0, MotorTimerCMD.START_MOTOR, some ⟨1000, false⟩, false⟩)) ∧
    fires demo_cfg 0 0 2
        (CreateTimer demo_cfg (demo_platform 10000) demo_motor demo_short_oneshot).2.1
      = none := by
  decide

/-- C15, what the code does. A repeating schedule with `period_ms = 1000` and `duration_ms
= 5` below the tick of 10 ms is accepted by `CreateTimer`; its first fire calls
`Start(speed)`, computes a delay of 0 ticks for the stop and does not re-arm: the timer
stays dormant in the `START_MOTOR` phase, no further fire happens and `Stop()` is never
called. -/
theorem repeating_short_left_unarmed :
    repeating demo_cfg demo_short ∧
    (CreateTimer demo_cfg (demo_platform 5000) demo_motor demo_short).1
      = Exit.returned ESP_OK ∧
    (CreateTimer demo_cfg (demo_platform 5000) demo_motor demo_short).2.1.timer_ctxs_[0]?
      = some (some ⟨0, MotorTimerCMD.START_MOTOR, some (Timer.armed 1), false⟩) ∧
    (TimerTask_switch demo_cfg MotorTimerCMD.START_MOTOR demo_short).2.2 = 0 ∧
    (fires demo_cfg 0 0 1
        (CreateTimer demo_cfg (demo_platform 5000) demo_motor demo_short).2.1).map
        (fun m1 => (m1.actuations, m1.timer_ctxs_[0]?))
      = some ([Actuation.Start 7],
          some (some ⟨0, MotorTimerCMD.START_MOTOR, some ⟨1, false⟩, false⟩)) ∧
    fires demo_cfg 0 0 2
        (CreateTimer demo_cfg (demo_platform 5000) demo_motor demo_short).2.1
      = none := by
  decide

/-! ## Failure of the timer creation and division by zero (C18, C19) -/

/-- C18, what the code does. When `xTimerCreate` returns null, `CreateTimer` returns
`ESP_ERR_NO_MEM` after the record has been written to the store and to slot 0 of the
parameter table and a context with a null handle has been stored in slot 0 of the context
table; all three were empty before the call. -/
theorem CreateTimer_timer_failure_leaves_slot :
    (CreateTimer demo_cfg { demo_platform 5000 with xTimerCreate_ok := false } demo_motor
        demo_param).1 = Exit.returned ESP_ERR_NO_MEM ∧
    demo_motor.timer_params_[0]? = some none ∧
    (CreateTimer demo_cfg { demo_platform 5000 with xTimerCreate_ok := false } demo_motor
        demo_param).2.1.timer_params_[0]? = some (some demo_param) ∧
    demo_motor.nvs = [] ∧
    (CreateTimer demo_cfg { demo_platform 5000 with xTimerCreate_ok := false } demo_motor
        demo_param).2.1.nvs = [(sprintf_d 0, demo_param)] ∧
    demo_motor.timer_ctxs_[0]? = some none ∧
    (CreateTimer demo_cfg { demo_platform 5000 with xTimerCreate_ok := false } demo_motor
        demo_param).2.1.timer_ctxs_[0]? = some (some (new_ctx demo_param none)) := by
  decide

/-- C19, what the code does. The one-shot schedule with `period_ms = 0`, `duration_ms =
5000` and first start at 20000 passes the validation of `CreateTimer`; at `now = 22000`,
inside its window, phase recovery evaluates `offset_from_frist_start % period_ms` with
`period_ms = 0`: the call does not return and no context is stored. -/
theorem InitTimerContext_divides_by_zero :
    ¬(demo_cfg.portTICK_PERIOD_MS ≤ demo_oneshot.period_ms ∧
      demo_oneshot.period_ms < demo_oneshot.duration_ms) ∧
    demo_oneshot.first_start_timestamp < 22000 ∧
    22000 < demo_oneshot.first_start_timestamp + demo_oneshot.duration_ms ∧
    ticks_to_start demo_cfg 22000 demo_oneshot = none ∧
    InitTimerContext demo_cfg (demo_platform 22000) demo_motor demo_oneshot
      = (Exit.aborted, demo_motor) ∧
    (CreateTimer demo_cfg (demo_platform 22000) demo_motor demo_oneshot).1 = Exit.aborted ∧
    (CreateTimer demo_cfg (demo_platform 22000) demo_motor demo_oneshot).2.1.timer_ctxs_[0]?
      = some none := by
  decide

/-! ## The slot-index invariant (C20) -/

theorem div_add_div_cycle (T a b : Nat) (hT : 0 < T) :
    a / T + b / T ≤ (a + b) / T ∧ (a + b) / T - 1 ≤ a / T + b / T ∧
    (a / T + b / T = (a + b) / T ↔ a % T + b % T < T) := by
  have h := Nat.add_div (a := a) (b := b) hT
  generalize (a + b) / T = z at h ⊢
  generalize a / T = x at h ⊢
  generalize b / T = y at h ⊢
  generalize a % T = u at h ⊢
  generalize b % T = v at h ⊢
  by_cases hc : T ≤ u + v
  · rw [if_pos hc] at h
    refine ⟨by omega, by omega, ⟨fun e => by omega, fun e => by omega⟩⟩
  · rw [if_neg hc] at h
    refine ⟨by omega, by omega, ⟨fun _ => by omega, fun _ => by omega⟩⟩

/-- C21. A repeating schedule with at least one tick of running time and one tick of
pause (delays fitting `TickType_t`), in the `START_MOTOR` phase: the fire that starts the
motor arms a delay `d1`, the next fire, which stops it, arms a delay `d2`, and `d1 + d2`
is at most `period_ms / T` and at least `period_ms / T - 1` ticks, where `T` is
`portTICK_PERIOD_MS`; it equals `period_ms / T` exactly when `(duration_ms mod T) +
((period_ms - duration_ms) mod T) < T`, in particular when `T` divides `duration_ms` and
`period_ms`. Such a schedule is repeating with `duration_ms ≤ period_ms`, as `CreateTimer`
accepts it. -/
theorem cycle_length_ticks (cfg : Config) (act_rc : esp_err_t) (n : Nat)
    (p : MotorTimerParam) (m : Motor) (ticks : Nat) (acts : List Actuation)
    (hp : p.WF cfg)
    (hdur : 1 ≤ p.duration_ms / cfg.portTICK_PERIOD_MS)
    (hgap : 1 ≤ (p.period_ms - p.duration_ms) / cfg.portTICK_PERIOD_MS)
    (hfit : p.period_ms / cfg.portTICK_PERIOD_MS < TICK_MOD)
    (h : Phase n p m MotorTimerCMD.START_MOTOR ticks acts) :
    repeating cfg p ∧ p.duration_ms ≤ p.period_ms ∧
    ∃ m1 m2 d1 d2,
      TimerTaskEntry cfg act_rc m n = some m1 ∧
      Phase n p m1 MotorTimerCMD.STOP_MOTOR d1 (acts ++ [Actuation.Start p.speed]) ∧
      TimerTaskEntry cfg act_rc m1 n = some m2 ∧
      Phase n p m2 MotorTimerCMD.START_MOTOR d2
        (acts ++ [Actuation.Start p.speed] ++ [Actuation.Stop]) ∧
      d1 = (TimerTask_switch cfg MotorTimerCMD.START_MOTOR p).2.2 ∧
      d2 = (TimerTask_switch cfg MotorTimerCMD.STOP_MOTOR p).2.2 ∧
      d1 + d2 ≤ p.period_ms / cfg.portTICK_PERIOD_MS ∧
      p.period_ms / cfg.portTICK_PERIOD_MS - 1 ≤ d1 + d2 ∧
      (d1 + d2 = p.period_ms / cfg.portTICK_PERIOD_MS ↔
        p.duration_ms % cfg.portTICK_PERIOD_MS
          + (p.period_ms - p.duration_ms) % cfg.portTICK_PERIOD_MS
            < cfg.portTICK_PERIOD_MS) ∧
      (cfg.portTICK_PERIOD_MS ∣ p.duration_ms → cfg.portTICK_PERIOD_MS ∣ p.period_ms →
        d1 + d2 = p.period_ms / cfg.portTICK_PERIOD_MS) := by
  have hT : 0 < cfg.portTICK_PERIOD_MS := by
    by_contra h0
    have : cfg.portTICK_PERIOD_MS = 0 := by omega
    rw [this, Nat.div_zero] at hdur
    omega
  have hle : p.duration_ms ≤ p.period_ms := by
    by_contra hc
    have : p.period_ms - p.duration_ms = 0 := by omega
    rw [this, Nat.zero_div] at hgap
    omega
  have hD : cfg.portTICK_PERIOD_MS ≤ p.duration_ms := by
    by_contra hc
    rw [Nat.div_eq_of_lt (by omega)] at hdur
    omega
  have hsum : p.duration_ms + (p.period_ms - p.duration_ms) = p.period_ms := by omega
  obtain ⟨c1, c2, c3⟩ := div_add_div_cycle cfg.portTICK_PERIOD_MS p.duration_ms
    (p.period_ms - p.duration_ms) hT
  rw [hsum] at c1 c2 c3
  have hsub := ms_sub_eq cfg p.period_ms p.duration_ms hp.1 hle
  have hgle : (p.period_ms - p.duration_ms) / cfg.portTICK_PERIOD_MS
      ≤ p.period_ms / cfg.portTICK_PERIOD_MS := Nat.div_le_div_right (by omega)
  have hdle : p.duration_ms / cfg.portTICK_PERIOD_MS ≤ p.period_ms / cfg.portTICK_PERIOD_MS :=
    Nat.div_le_div_right hle
  have hsw1 : (TimerTask_switch cfg MotorTimerCMD.START_MOTOR p).2.2
      = p.duration_ms / cfg.portTICK_PERIOD_MS := by
    unfold TimerTask_switch
    simp only [hsub]
    rw [if_neg (by omega), Nat.mod_eq_of_lt (by omega)]
  have hsw2 : (TimerTask_switch cfg MotorTimerCMD.STOP_MOTOR p).2.2
      = (p.period_ms - p.duration_ms) / cfg.portTICK_PERIOD_MS := by
    unfold TimerTask_switch
    simp only [hsub]
    rw [if_neg (by omega), Nat.mod_eq_of_lt (by omega)]
  obtain ⟨m1, e1, ph1⟩ := Phase_start_step cfg act_rc n p m ticks acts hp hdur hgap hfit h
  obtain ⟨m2, e2, ph2⟩ := Phase_stop_step cfg act_rc n p m1 _ _ hp hgap hfit ph1
  refine ⟨by unfold repeating; omega, hle, m1, m2, _, _, e1, ph1, e2, ph2, hsw1.symm,
    hsw2.symm, c1, c2, c3, fun hd hper => ?_⟩
  apply c3.mpr
  have h1 : p.duration_ms % cfg.portTICK_PERIOD_MS = 0 := Nat.mod_eq_zero_of_dvd hd
  have h2 : (p.period_ms - p.duration_ms) % cfg.portTICK_PERIOD_MS = 0 :=
    Nat.mod_eq_zero_of_dvd (Nat.dvd_sub' hper hd)
  omega

/-- Witness of C21: `period_ms = 1000`, `duration_ms = 300` and a tick of 10 ms give
`30 + 70 = 100` ticks. -/
theorem cycle_length_ticks_witness :
    ∃ m1 m2 d1 d2,
      TimerTaskEntry demo_cfg 0 demo_armed 0 = some m1 ∧
      Phase 0 demo_param m1 MotorTimerCMD.STOP_MOTOR d1 [Actuation.Start 7] ∧
      TimerTaskEntry demo_cfg 0 m1 0 = some m2 ∧
      Phase 0 demo_param m2 MotorTimerCMD.START_MOTOR d2 [Actuation.Start 7, Actuation.Stop] ∧
      d1 = 30 ∧ d2 = 70 ∧ d1 + d2 = 100 := by
  obtain ⟨-, -, m1, m2, d1, d2, e1, ph1, e2, ph2, hd1, hd2, -, -, -, hdiv⟩ :=
    cycle_length_ticks demo_cfg 0 0 demo_param demo_armed 1 [] (by decide) (by decide)
      (by decide) (by decide) ⟨by decide, by decide, by decide⟩
  exact ⟨m1, m2, d1, d2, e1, ph1, e2, ph2, by rw [hd1]; decide, by rw [hd2]; decide,
    hdiv (by decide) (by decide)⟩

end sd
